import Mathlib

/-!
Shallow embedding of the TAV notebook (`src/TAV.ipynb`): conversion between
compass bearings and cartesian velocity vectors, and the three-leg
chord/bisector circle solver `calculate` that recovers true airspeed, wind
and headings from three (groundspeed, track) observations.

Python/numpy floating point is modelled over `ℝ`: `np.cos`/`np.sin` become
`Real.cos`/`Real.sin`, `np.hypot x y` becomes `Real.sqrt (x^2 + y^2)`,
`np.arctan2 y x` becomes `Complex.arg (x + y*I)` (the quadrant-correct
arctangent with values in `(-π, π]` and `arctan2 0 0 = 0`), and the Python
float modulo `x % 360` becomes the floor-based `fmod`.
-/

namespace TAV

/-- Source `cartesian(rho, theta)`: `(rho*cos(theta), rho*sin(theta))`. -/
noncomputable def cartesian (rho theta : ℝ) : ℝ × ℝ :=
  (rho * Real.cos theta, rho * Real.sin theta)

/-- Model of `np.arctan2(y, x)`: the quadrant-correct arctangent, realised as
the complex argument of `x + y*I`, with values in `(-π, π]` and
`arctan2 0 0 = 0`. -/
noncomputable def arctan2 (y x : ℝ) : ℝ := Complex.arg (x + y * Complex.I)

/-- Source `polar(v)`: `(hypot(x, y), arctan2(y, x))`. -/
noncomputable def polar (v : ℝ × ℝ) : ℝ × ℝ :=
  (Real.sqrt (v.1 ^ 2 + v.2 ^ 2), arctan2 v.2 v.1)

/-- Model of `np.radians`. -/
noncomputable def radians (d : ℝ) : ℝ := d * (Real.pi / 180)

/-- Model of `np.degrees`. -/
noncomputable def degrees (r : ℝ) : ℝ := r * (180 / Real.pi)

/-- Model of the Python float modulo `x % y` (floor convention: the result
has the sign of the divisor). -/
noncomputable def fmod (x y : ℝ) : ℝ := x - y * ⌊x / y⌋

/-- Source `fromCompass(speed, track)`: `cartesian(speed, radians(90 - track))`. -/
noncomputable def fromCompass (speed track : ℝ) : ℝ × ℝ :=
  cartesian speed (radians (90 - track))

/-- Source `toCompass(v)`: `speed, (90 - degrees(theta)) % 360` where
`(speed, theta) = polar(v)`. -/
noncomputable def toCompass (v : ℝ × ℝ) : ℝ × ℝ :=
  ((polar v).1, fmod (90 - degrees (polar v).2) 360)

/-- Source `mag(v)`: `sqrt(v[0]**2 + v[1]**2)`. -/
noncomputable def mag (v : ℝ × ℝ) : ℝ := Real.sqrt (v.1 ^ 2 + v.2 ^ 2)

/-- Model of `np.subtract` on 2-vectors. -/
def vsub (u v : ℝ × ℝ) : ℝ × ℝ := (u.1 - v.1, u.2 - v.2)

/-- Model of numpy unary minus on 2-vectors (the notebook reports wind via
`toCompass(-w)`). -/
def vneg (v : ℝ × ℝ) : ℝ × ℝ := (-v.1, -v.2)

/-- Source bisector slope `mq = -p[0]/p[1]` of a chord `p`. -/
noncomputable def mq (p : ℝ × ℝ) : ℝ := -p.1 / p.2

/-- Source bisector y-intercept `bq = (p[1] - mq*p[0]) / 2` of a chord `p`. -/
noncomputable def bq (p : ℝ × ℝ) : ℝ := (p.2 - mq p * p.1) / 2

/-- Source circle-centre x coordinate `xO = (bq2-bq1)/(mq1-mq2)`, where the
chords are `p1 = g1 - g2` and `p2 = g1 - g3`. -/
noncomputable def xO (g1 g2 g3 : ℝ × ℝ) : ℝ :=
  (bq (vsub g1 g3) - bq (vsub g1 g2)) / (mq (vsub g1 g2) - mq (vsub g1 g3))

/-- Source circle-centre y coordinate `yO = mq1 * xO + bq1`. -/
noncomputable def yO (g1 g2 g3 : ℝ × ℝ) : ℝ :=
  mq (vsub g1 g2) * xO g1 g2 g3 + bq (vsub g1 g2)

/-- Source `a1 = [xO, yO]`, the circle centre (first air vector). -/
noncomputable def a1 (g1 g2 g3 : ℝ × ℝ) : ℝ × ℝ := (xO g1 g2 g3, yO g1 g2 g3)

/-- Source `w = g1 - a1`, the wind vector. -/
noncomputable def wind (g1 g2 g3 : ℝ × ℝ) : ℝ × ℝ := vsub g1 (a1 g1 g2 g3)

/-- Source `a2 = g2 - w`. -/
noncomputable def a2 (g1 g2 g3 : ℝ × ℝ) : ℝ × ℝ := vsub g2 (wind g1 g2 g3)

/-- Source `a3 = g3 - w`. -/
noncomputable def a3 (g1 g2 g3 : ℝ × ℝ) : ℝ × ℝ := vsub g3 (wind g1 g2 g3)

/-- Source `tas = mag(a1)`. -/
noncomputable def tas (g1 g2 g3 : ℝ × ℝ) : ℝ := mag (a1 g1 g2 g3)

/-- Source `calculate(data)` for `data = [d1, d2, d3]`: lifts the three
(groundspeed, track) pairs through `fromCompass`, runs the chord/bisector
solver, and returns `(tas, w, headings)` with the headings obtained by
`toCompass(v)[1]` for `v` in `[a1, a2, a3]`. -/
noncomputable def calculate (d1 d2 d3 : ℝ × ℝ) : ℝ × (ℝ × ℝ) × (ℝ × ℝ × ℝ) :=
  (tas (fromCompass d1.1 d1.2) (fromCompass d2.1 d2.2) (fromCompass d3.1 d3.2),
   wind (fromCompass d1.1 d1.2) (fromCompass d2.1 d2.2) (fromCompass d3.1 d3.2),
   ((toCompass (a1 (fromCompass d1.1 d1.2) (fromCompass d2.1 d2.2) (fromCompass d3.1 d3.2))).2,
    (toCompass (a2 (fromCompass d1.1 d1.2) (fromCompass d2.1 d2.2) (fromCompass d3.1 d3.2))).2,
    (toCompass (a3 (fromCompass d1.1 d1.2) (fromCompass d2.1 d2.2) (fromCompass d3.1 d3.2))).2))

/-- NonDeg `g1 g2 g3`: the divisions performed by `calculate` are well
defined — both chords have nonzero y component and the two bisector slopes
differ. -/
def NonDeg (g1 g2 g3 : ℝ × ℝ) : Prop :=
  (vsub g1 g2).2 ≠ 0 ∧ (vsub g1 g3).2 ≠ 0 ∧ mq (vsub g1 g2) ≠ mq (vsub g1 g3)

/-- Rotation of a 2-vector by the mathematical angle `d` (counter-clockwise,
radians). Used to state and prove the rotation-symmetry property of the
solver; not itself part of the source. -/
noncomputable def rot (d : ℝ) (v : ℝ × ℝ) : ℝ × ℝ :=
  (v.1 * Real.cos d - v.2 * Real.sin d, v.1 * Real.sin d + v.2 * Real.cos d)

/-! Basic facts about `fmod`, `degrees` and `radians`. -/

theorem fmod_eq_self {x y : ℝ} (h0 : 0 ≤ x) (hxy : x < y) : fmod x y = x := by
  have hy : 0 < y := lt_of_le_of_lt h0 hxy
  have hfl : ⌊x / y⌋ = 0 := by
    rw [Int.floor_eq_zero_iff]
    constructor
    · exact div_nonneg h0 hy.le
    · exact (div_lt_one hy).2 hxy
  simp [fmod, hfl]

theorem fmod_add_int_mul (x y : ℝ) (hy : y ≠ 0) (k : ℤ) :
    fmod (x + y * k) y = fmod x y := by
  have hdiv : (x + y * k) / y = x / y + k := by
    field_simp
    ring
  rw [fmod, fmod, hdiv, Int.floor_add_int]
  push_cast
  ring

theorem fmod_nonneg {x y : ℝ} (hy : 0 < y) : 0 ≤ fmod x y := by
  have h := Int.floor_le (x / y)
  have : y * ⌊x / y⌋ ≤ y * (x / y) := by
    exact mul_le_mul_of_nonneg_left h hy.le
  rw [mul_div_cancel₀ x hy.ne.symm] at this
  simpa [fmod] using this

theorem fmod_lt {x y : ℝ} (hy : 0 < y) : fmod x y < y := by
  have h := Int.sub_one_lt_floor (x / y)
  have : y * (x / y - 1) < y * ⌊x / y⌋ := by
    exact mul_lt_mul_of_pos_left h hy
  rw [mul_sub, mul_one, mul_div_cancel₀ x hy.ne.symm] at this
  simp only [fmod]
  linarith

theorem degrees_radians (x : ℝ) : degrees (radians x) = x := by
  have hpi := Real.pi_ne_zero
  field_simp [degrees, radians]

theorem degrees_two_pi : degrees (2 * Real.pi) = 360 := by
  have hpi := Real.pi_ne_zero
  field_simp [degrees]
  ring

/-! Core round-trip lemmas for the conversion layer. -/

theorem arctan2_cartesian {s : ℝ} (hs : 0 < s) {theta : ℝ}
    (h : theta ∈ Set.Ioc (-Real.pi) Real.pi) :
    arctan2 (s * Real.sin theta) (s * Real.cos theta) = theta := by
  have hmain := Complex.arg_mul_cos_add_sin_mul_I hs h
  rw [arctan2]
  convert hmain using 2
  push_cast
  ring

theorem sq_mag_fromCompass (s t : ℝ) :
    (fromCompass s t).1 ^ 2 + (fromCompass s t).2 ^ 2 = s ^ 2 := by
  simp only [fromCompass, cartesian]
  have h := Real.sin_sq_add_cos_sq (radians (90 - t))
  nlinarith [h]

theorem mag_fromCompass {s : ℝ} (hs : 0 ≤ s) (t : ℝ) :
    mag (fromCompass s t) = s := by
  rw [mag, sq_mag_fromCompass, Real.sqrt_sq hs]

theorem toCompass_fromCompass {s t : ℝ} (hs : 0 < s) (ht0 : 0 ≤ t)
    (ht : t < 360) : toCompass (fromCompass s t) = (s, t) := by
  have hpi := Real.pi_pos
  have hfirst : (toCompass (fromCompass s t)).1 = s := by
    show Real.sqrt _ = s
    rw [show (fromCompass s t).1 ^ 2 + (fromCompass s t).2 ^ 2 = s ^ 2 from
      sq_mag_fromCompass s t, Real.sqrt_sq hs.le]
  have hsecond : (toCompass (fromCompass s t)).2 = t := by
    show fmod (90 - degrees (arctan2 (fromCompass s t).2 (fromCompass s t).1)) 360 = t
    rcases lt_or_le t 270 with hcase | hcase
    · have hmem : radians (90 - t) ∈ Set.Ioc (-Real.pi) Real.pi := by
        constructor
        · show -Real.pi < (90 - t) * (Real.pi / 180)
          nlinarith
        · show (90 - t) * (Real.pi / 180) ≤ Real.pi
          nlinarith
      rw [show (fromCompass s t).2 = s * Real.sin (radians (90 - t)) from rfl,
        show (fromCompass s t).1 = s * Real.cos (radians (90 - t)) from rfl,
        arctan2_cartesian hs hmem, degrees_radians]
      rw [show (90 : ℝ) - (90 - t) = t by ring]
      exact fmod_eq_self ht0 ht
    · have hcos : Real.cos (radians (90 - t)) =
          Real.cos (radians (90 - t) + 2 * Real.pi) := by
        rw [Real.cos_add_two_pi]
      have hsin : Real.sin (radians (90 - t)) =
          Real.sin (radians (90 - t) + 2 * Real.pi) := by
        rw [Real.sin_add_two_pi]
      have hmem : radians (90 - t) + 2 * Real.pi ∈ Set.Ioc (-Real.pi) Real.pi := by
        constructor
        · show -Real.pi < (90 - t) * (Real.pi / 180) + 2 * Real.pi
          nlinarith
        · show (90 - t) * (Real.pi / 180) + 2 * Real.pi ≤ Real.pi
          nlinarith
      rw [show (fromCompass s t).2 = s * Real.sin (radians (90 - t)) from rfl,
        show (fromCompass s t).1 = s * Real.cos (radians (90 - t)) from rfl,
        hcos, hsin, arctan2_cartesian hs hmem]
      have hdeg : degrees (radians (90 - t) + 2 * Real.pi) = (90 - t) + 360 := by
        have : degrees (radians (90 - t) + 2 * Real.pi) =
            degrees (radians (90 - t)) + degrees (2 * Real.pi) := by
          simp only [degrees]
          ring
        rw [this, degrees_radians, degrees_two_pi]
      rw [hdeg, show (90 : ℝ) - (90 - t + 360) = t + 360 * ((-1 : ℤ) : ℝ) by
        push_cast; ring, fmod_add_int_mul _ _ (by norm_num) (-1)]
      exact fmod_eq_self ht0 ht
  exact Prod.ext hfirst hsecond

theorem toCompass_origin : toCompass (0, 0) = (0, 90) := by
  have h1 : (toCompass ((0 : ℝ), (0 : ℝ))).1 = 0 := by
    show Real.sqrt _ = 0
    norm_num
  have h2 : (toCompass ((0 : ℝ), (0 : ℝ))).2 = 90 := by
    show fmod (90 - degrees (arctan2 0 0)) 360 = 90
    have harg : arctan2 (0 : ℝ) (0 : ℝ) = 0 := by
      simp [arctan2]
    rw [harg, show degrees 0 = 0 by simp [degrees]]
    norm_num
    exact fmod_eq_self (by norm_num) (by norm_num)
  exact Prod.ext h1 h2

theorem fromCompass_speed_zero (t : ℝ) : fromCompass 0 t = (0, 0) := by
  simp [fromCompass, cartesian]

/-! Concrete evaluations of `fromCompass` at the cardinal tracks. -/

theorem radians_ninety : radians 90 = Real.pi / 2 := by
  rw [radians]
  ring

theorem fromCompass_track_zero (s : ℝ) : fromCompass s 0 = (0, s) := by
  rw [fromCompass, show (90 : ℝ) - 0 = 90 by ring, radians_ninety, cartesian]
  simp

theorem fromCompass_track_90 (s : ℝ) : fromCompass s 90 = (s, 0) := by
  rw [fromCompass, show (90 : ℝ) - 90 = 0 by ring, cartesian]
  simp [radians]

theorem fromCompass_track_180 (s : ℝ) : fromCompass s 180 = (0, -s) := by
  rw [fromCompass, show radians (90 - 180) = -(Real.pi / 2) by rw [radians]; ring,
    cartesian]
  simp

/-! Algebra of the chord/bisector construction. A point `z` lies on the
perpendicular bisector of the chord from the origin to `p` exactly when
`z ⬝ p = |p|^2 / 2`; the centre `(xO, yO)` lies on both bisectors, and under
`NonDeg` it is the unique such point. -/

theorem on_line_of_dot {z p : ℝ × ℝ} (hp : p.2 ≠ 0)
    (h : z.1 * p.1 + z.2 * p.2 = (p.1 ^ 2 + p.2 ^ 2) / 2) :
    z.2 = mq p * z.1 + bq p := by
  have expand : (mq p * z.1 + bq p) * p.2 =
      -p.1 * z.1 + (p.1 ^ 2 + p.2 ^ 2) / 2 := by
    simp only [bq, mq]
    field_simp
    ring
  have key : z.2 * p.2 = (mq p * z.1 + bq p) * p.2 := by
    rw [expand]
    linear_combination h
  exact mul_right_cancel₀ hp key

theorem bisector_equidistant {z p : ℝ × ℝ}
    (h : z.1 * p.1 + z.2 * p.2 = (p.1 ^ 2 + p.2 ^ 2) / 2) :
    (z.1 - p.1) ^ 2 + (z.2 - p.2) ^ 2 = z.1 ^ 2 + z.2 ^ 2 := by
  linear_combination (-2 : ℝ) * h

theorem g1_dot_chord {g1 g2 : ℝ × ℝ}
    (hmag : g1.1 ^ 2 + g1.2 ^ 2 = g2.1 ^ 2 + g2.2 ^ 2) :
    g1.1 * (vsub g1 g2).1 + g1.2 * (vsub g1 g2).2 =
      ((vsub g1 g2).1 ^ 2 + (vsub g1 g2).2 ^ 2) / 2 := by
  simp only [vsub]
  linear_combination hmag / 2

theorem a1_dot1 (g3 : ℝ × ℝ) {g1 g2 : ℝ × ℝ} (hp1 : (vsub g1 g2).2 ≠ 0) :
    (a1 g1 g2 g3).1 * (vsub g1 g2).1 + (a1 g1 g2 g3).2 * (vsub g1 g2).2 =
      ((vsub g1 g2).1 ^ 2 + (vsub g1 g2).2 ^ 2) / 2 := by
  show xO g1 g2 g3 * (vsub g1 g2).1 +
      (mq (vsub g1 g2) * xO g1 g2 g3 + bq (vsub g1 g2)) * (vsub g1 g2).2 = _
  simp only [bq, mq]
  field_simp
  ring

theorem a1_line2 {g1 g2 g3 : ℝ × ℝ}
    (hm : mq (vsub g1 g2) ≠ mq (vsub g1 g3)) :
    yO g1 g2 g3 = mq (vsub g1 g3) * xO g1 g2 g3 + bq (vsub g1 g3) := by
  have hx : (mq (vsub g1 g2) - mq (vsub g1 g3)) * xO g1 g2 g3 =
      bq (vsub g1 g3) - bq (vsub g1 g2) := by
    rw [xO, mul_comm, div_mul_cancel₀ _ (sub_ne_zero.2 hm)]
  rw [yO]
  linear_combination hx

theorem a1_dot2 (g2 : ℝ × ℝ) {g1 g3 : ℝ × ℝ} (hp2 : (vsub g1 g3).2 ≠ 0)
    (hm : mq (vsub g1 g2) ≠ mq (vsub g1 g3)) :
    (a1 g1 g2 g3).1 * (vsub g1 g3).1 + (a1 g1 g2 g3).2 * (vsub g1 g3).2 =
      ((vsub g1 g3).1 ^ 2 + (vsub g1 g3).2 ^ 2) / 2 := by
  show xO g1 g2 g3 * (vsub g1 g3).1 + yO g1 g2 g3 * (vsub g1 g3).2 = _
  rw [a1_line2 hm]
  simp only [bq, mq]
  field_simp
  ring

theorem center_eq {g1 g2 g3 z : ℝ × ℝ} (hnd : NonDeg g1 g2 g3)
    (h1 : z.1 * (vsub g1 g2).1 + z.2 * (vsub g1 g2).2 =
      ((vsub g1 g2).1 ^ 2 + (vsub g1 g2).2 ^ 2) / 2)
    (h2 : z.1 * (vsub g1 g3).1 + z.2 * (vsub g1 g3).2 =
      ((vsub g1 g3).1 ^ 2 + (vsub g1 g3).2 ^ 2) / 2) :
    a1 g1 g2 g3 = z := by
  obtain ⟨hp1, hp2, hm⟩ := hnd
  have line1 : z.2 = mq (vsub g1 g2) * z.1 + bq (vsub g1 g2) :=
    on_line_of_dot hp1 h1
  have line2 : z.2 = mq (vsub g1 g3) * z.1 + bq (vsub g1 g3) :=
    on_line_of_dot hp2 h2
  have hsub : (mq (vsub g1 g2) - mq (vsub g1 g3)) * z.1 =
      bq (vsub g1 g3) - bq (vsub g1 g2) := by
    linear_combination line2 - line1
  have hx : xO g1 g2 g3 = z.1 := by
    rw [xO, div_eq_iff (sub_ne_zero.2 hm), mul_comm]
    exact hsub.symm
  have hy : yO g1 g2 g3 = z.2 := by
    rw [yO, hx, ← line1]
  exact Prod.ext hx hy

theorem a1_fromCompass_eq_g1 {s t1 t2 t3 : ℝ}
    (hnd : NonDeg (fromCompass s t1) (fromCompass s t2) (fromCompass s t3)) :
    a1 (fromCompass s t1) (fromCompass s t2) (fromCompass s t3) =
      fromCompass s t1 := by
  refine center_eq hnd (g1_dot_chord ?_) (g1_dot_chord ?_) <;>
    rw [sq_mag_fromCompass, sq_mag_fromCompass]

theorem sq_mag_a2_eq (g3 : ℝ × ℝ) {g1 g2 : ℝ × ℝ} (hp1 : (vsub g1 g2).2 ≠ 0) :
    (a2 g1 g2 g3).1 ^ 2 + (a2 g1 g2 g3).2 ^ 2 =
      (a1 g1 g2 g3).1 ^ 2 + (a1 g1 g2 g3).2 ^ 2 := by
  have h := bisector_equidistant (a1_dot1 g3 hp1)
  simp only [a2, wind, vsub] at *
  linear_combination h

theorem sq_mag_a3_eq (g2 : ℝ × ℝ) {g1 g3 : ℝ × ℝ} (hp2 : (vsub g1 g3).2 ≠ 0)
    (hm : mq (vsub g1 g2) ≠ mq (vsub g1 g3)) :
    (a3 g1 g2 g3).1 ^ 2 + (a3 g1 g2 g3).2 ^ 2 =
      (a1 g1 g2 g3).1 ^ 2 + (a1 g1 g2 g3).2 ^ 2 := by
  have h := bisector_equidistant (a1_dot2 g2 hp2 hm)
  simp only [a3, wind, vsub] at *
  linear_combination h

/-! Under `NonDeg` none of the three air vectors is the zero vector (a zero
centre would force a zero-length chord). -/

theorem a1_ne_zero {g1 g2 g3 : ℝ × ℝ} (hp1 : (vsub g1 g2).2 ≠ 0) :
    ¬((a1 g1 g2 g3).1 = 0 ∧ (a1 g1 g2 g3).2 = 0) := by
  rintro ⟨h1, h2⟩
  have h := a1_dot1 g3 hp1
  rw [h1, h2] at h
  have : (vsub g1 g2).2 = 0 := by
    nlinarith [sq_nonneg (vsub g1 g2).1, sq_nonneg (vsub g1 g2).2]
  exact hp1 this

theorem a2_ne_zero {g1 g2 g3 : ℝ × ℝ} (hp1 : (vsub g1 g2).2 ≠ 0) :
    ¬((a2 g1 g2 g3).1 = 0 ∧ (a2 g1 g2 g3).2 = 0) := by
  rintro ⟨h1, h2⟩
  have hsq := sq_mag_a2_eq g3 hp1
  rw [h1, h2] at hsq
  have ha1 : (a1 g1 g2 g3).1 = 0 ∧ (a1 g1 g2 g3).2 = 0 := by
    constructor <;>
      nlinarith [sq_nonneg (a1 g1 g2 g3).1, sq_nonneg (a1 g1 g2 g3).2]
  exact a1_ne_zero hp1 ha1

theorem a3_ne_zero {g1 g2 g3 : ℝ × ℝ} (hp1 : (vsub g1 g2).2 ≠ 0)
    (hp2 : (vsub g1 g3).2 ≠ 0)
    (hm : mq (vsub g1 g2) ≠ mq (vsub g1 g3)) :
    ¬((a3 g1 g2 g3).1 = 0 ∧ (a3 g1 g2 g3).2 = 0) := by
  rintro ⟨h1, h2⟩
  have hsq := sq_mag_a3_eq g2 hp2 hm
  rw [h1, h2] at hsq
  have ha1 : (a1 g1 g2 g3).1 = 0 ∧ (a1 g1 g2 g3).2 = 0 := by
    constructor <;>
      nlinarith [sq_nonneg (a1 g1 g2 g3).1, sq_nonneg (a1 g1 g2 g3).2]
  exact a1_ne_zero hp1 ha1

/-! Rotation: `rot d` preserves subtraction, negation, dot products and
magnitudes, and shifting every track by `d` degrees rotates every ground
vector by `-(radians d)`. -/

theorem rot_vsub (d : ℝ) (u v : ℝ × ℝ) :
    vsub (rot d u) (rot d v) = rot d (vsub u v) := by
  simp only [rot, vsub]
  exact Prod.ext (by ring) (by ring)

theorem rot_vneg (d : ℝ) (v : ℝ × ℝ) : vneg (rot d v) = rot d (vneg v) := by
  simp only [rot, vneg]
  exact Prod.ext (by ring) (by ring)

theorem rot_dot (d : ℝ) (u v : ℝ × ℝ) :
    (rot d u).1 * (rot d v).1 + (rot d u).2 * (rot d v).2 =
      u.1 * v.1 + u.2 * v.2 := by
  simp only [rot]
  linear_combination (u.1 * v.1 + u.2 * v.2) * Real.sin_sq_add_cos_sq d

theorem rot_mag (d : ℝ) (v : ℝ × ℝ) : mag (rot d v) = mag v := by
  rw [mag, mag]
  congr 1
  linear_combination rot_dot d v v

theorem fromCompass_shift (s t d : ℝ) :
    fromCompass s (t + d) = rot (-(radians d)) (fromCompass s t) := by
  have hang : radians (90 - (t + d)) = radians (90 - t) - radians d := by
    simp only [radians]
    ring
  simp only [fromCompass, cartesian, rot, hang]
  rw [Prod.ext_iff]
  constructor
  · show s * Real.cos (radians (90 - t) - radians d) = _
    rw [Real.cos_sub, Real.cos_neg, Real.sin_neg]
    ring
  · show s * Real.sin (radians (90 - t) - radians d) = _
    rw [Real.sin_sub, Real.cos_neg, Real.sin_neg]
    ring

theorem fromCompass_add_360 (s t : ℝ) : fromCompass s (t + 360) = fromCompass s t := by
  have hang : radians (90 - (t + 360)) = radians (90 - t) - 2 * Real.pi := by
    simp only [radians]
    ring
  simp only [fromCompass, cartesian, hang, Real.cos_sub_two_pi, Real.sin_sub_two_pi]

/-! Equivariance of the solver under rotation, and the effect of rotation on
compass bearings. -/

theorem a1_rot {g1 g2 g3 : ℝ × ℝ} (d : ℝ)
    (hnd' : NonDeg (rot d g1) (rot d g2) (rot d g3))
    (hp1 : (vsub g1 g2).2 ≠ 0) (hp2 : (vsub g1 g3).2 ≠ 0)
    (hm : mq (vsub g1 g2) ≠ mq (vsub g1 g3)) :
    a1 (rot d g1) (rot d g2) (rot d g3) = rot d (a1 g1 g2 g3) := by
  apply center_eq hnd'
  · rw [rot_vsub]
    have h1 := a1_dot1 g3 hp1
    have hd := rot_dot d (a1 g1 g2 g3) (vsub g1 g2)
    have hn := rot_dot d (vsub g1 g2) (vsub g1 g2)
    linear_combination hd + h1 - hn / 2
  · rw [rot_vsub]
    have h2 := a1_dot2 g2 hp2 hm
    have hd := rot_dot d (a1 g1 g2 g3) (vsub g1 g3)
    have hn := rot_dot d (vsub g1 g3) (vsub g1 g3)
    linear_combination hd + h2 - hn / 2

theorem wind_rot {g1 g2 g3 : ℝ × ℝ} (d : ℝ)
    (hnd' : NonDeg (rot d g1) (rot d g2) (rot d g3))
    (hp1 : (vsub g1 g2).2 ≠ 0) (hp2 : (vsub g1 g3).2 ≠ 0)
    (hm : mq (vsub g1 g2) ≠ mq (vsub g1 g3)) :
    wind (rot d g1) (rot d g2) (rot d g3) = rot d (wind g1 g2 g3) := by
  rw [wind, wind, a1_rot d hnd' hp1 hp2 hm, rot_vsub]

theorem degrees_two_pi_int (k : ℤ) : degrees (2 * Real.pi * k) = 360 * k := by
  have hpi := Real.pi_ne_zero
  rw [degrees]
  field_simp
  ring

theorem arctan2_rot {v : ℝ × ℝ} (hv : ¬(v.1 = 0 ∧ v.2 = 0)) (d : ℝ) :
    ∃ k : ℤ, arctan2 (rot d v).2 (rot d v).1 =
      arctan2 v.2 v.1 + d + 2 * Real.pi * k := by
  have hz : (v.1 : ℂ) + v.2 * Complex.I ≠ 0 := by
    intro h
    apply hv
    constructor
    · have := congrArg Complex.re h
      simpa using this
    · have := congrArg Complex.im h
      simpa using this
  have hu : (Real.cos d : ℂ) + Real.sin d * Complex.I ≠ 0 := by
    intro h
    have h1 : Real.cos d = 0 := by
      have := congrArg Complex.re h
      simpa using this
    have h2 : Real.sin d = 0 := by
      have := congrArg Complex.im h
      simpa using this
    have hs := Real.sin_sq_add_cos_sq d
    rw [h1, h2] at hs
    norm_num at hs
  have hprod : ((rot d v).1 : ℂ) + (rot d v).2 * Complex.I =
      ((v.1 : ℂ) + v.2 * Complex.I) * ((Real.cos d : ℂ) + Real.sin d * Complex.I) := by
    apply Complex.ext <;> simp [Complex.mul_re, Complex.mul_im, rot] <;> ring
  have hargu : ((((Real.cos d : ℂ) + Real.sin d * Complex.I).arg : ℝ) : Real.Angle) =
      (d : Real.Angle) := by
    have h := Complex.arg_cos_add_sin_mul_I_coe_angle (d : Real.Angle)
    rw [Real.Angle.cos_coe, Real.Angle.sin_coe] at h
    exact h
  have hangle := Complex.arg_mul_coe_angle hz hu
  rw [hargu] at hangle
  have hcomb : ((Complex.arg (((v.1 : ℂ) + v.2 * Complex.I) *
      ((Real.cos d : ℂ) + Real.sin d * Complex.I)) : ℝ) : Real.Angle) =
      ((Complex.arg ((v.1 : ℂ) + v.2 * Complex.I) + d : ℝ) : Real.Angle) := by
    rw [Real.Angle.coe_add]
    exact hangle
  obtain ⟨k, hk⟩ := Real.Angle.angle_eq_iff_two_pi_dvd_sub.1 hcomb
  refine ⟨k, ?_⟩
  rw [arctan2, arctan2, hprod]
  linarith [hk]

theorem toCompass_rot {v : ℝ × ℝ} (hv : ¬(v.1 = 0 ∧ v.2 = 0)) (t : ℝ) :
    (toCompass (rot (-(radians t)) v)).2 = fmod ((toCompass v).2 + t) 360 := by
  obtain ⟨k, hk⟩ := arctan2_rot hv (-(radians t))
  show fmod (90 - degrees (arctan2 (rot (-(radians t)) v).2
    (rot (-(radians t)) v).1)) 360 = _
  rw [hk]
  have hdeg : degrees (arctan2 v.2 v.1 + -(radians t) + 2 * Real.pi * k) =
      degrees (arctan2 v.2 v.1) - t + 360 * k := by
    have e1 : degrees (arctan2 v.2 v.1 + -(radians t) + 2 * Real.pi * k) =
        degrees (arctan2 v.2 v.1) - degrees (radians t) + degrees (2 * Real.pi * k) := by
      simp only [degrees]
      ring
    rw [e1, degrees_radians, degrees_two_pi_int]
  rw [hdeg]
  rw [show (90 : ℝ) - (degrees (arctan2 v.2 v.1) - t + 360 * k) =
      90 - degrees (arctan2 v.2 v.1) + t + 360 * ((-k : ℤ) : ℝ) by push_cast; ring,
    fmod_add_int_mul _ _ (by norm_num) (-k)]
  show _ = fmod (fmod (90 - degrees (arctan2 v.2 v.1)) 360 + t) 360
  rw [show fmod (90 - degrees (arctan2 v.2 v.1)) 360 + t =
      90 - degrees (arctan2 v.2 v.1) + t +
        360 * ((-⌊(90 - degrees (arctan2 v.2 v.1)) / 360⌋ : ℤ) : ℝ) by
      simp only [fmod]; push_cast; ring,
    fmod_add_int_mul _ _ (by norm_num) _]

/-- C10: applying `toCompass` to the zero vector does not fail and returns
speed 0 and bearing 90 degrees, because `arctan2 0 0 = 0` gives bearing
`(90 - 0) mod 360 = 90`. -/
theorem toCompass_zero_vector : toCompass (0, 0) = (0, 90) := toCompass_origin

/-- C2 counterexample: at speed 0 (and bearing 0) the round trip
`toCompass (fromCompass 0 0)` returns `(0, 90)`, not `(0, 0)`: the bearing is
off by 90 degrees, far beyond any floating-point tolerance, so the round-trip
property fails at speed 0. -/
theorem roundtrip_fails_at_speed_zero :
    toCompass (fromCompass 0 0) = (0, 90) ∧ toCompass (fromCompass 0 0) ≠ (0, 0) := by
  rw [fromCompass_speed_zero, toCompass_origin]
  norm_num [Prod.ext_iff]

/-- C2 (amended): for every speed strictly greater than 0 and every bearing in
`[0, 360)`, the round trip `toCompass (fromCompass speed bearing)` returns
exactly `(speed, bearing)` (over the reals the round trip is exact, which is
the idealisation of the 1e-9 relative floating-point tolerance), including at
bearing 0 and bearing 359.999. -/
theorem toCompass_fromCompass_roundtrip {s t : ℝ} (hs : 0 < s) (ht0 : 0 ≤ t)
    (ht : t < 360) : toCompass (fromCompass s t) = (s, t) :=
  toCompass_fromCompass hs ht0 ht

/-- C2 witness: the amended round trip at the concrete input (1, 90). -/
theorem toCompass_fromCompass_roundtrip_witness :
    toCompass (fromCompass 1 90) = (1, 90) :=
  toCompass_fromCompass_roundtrip (by norm_num) (by norm_num) (by norm_num)

/-- C7: for every speed ≥ 0 and every real bearing, the Euclidean magnitude of
the vector returned by `fromCompass` equals the speed exactly. -/
theorem mag_fromCompass_eq_speed (s t : ℝ) (hs : 0 ≤ s) :
    mag (fromCompass s t) = s :=
  mag_fromCompass hs t

/-- C7 witness: the magnitude property at the concrete input (5, 123). -/
theorem mag_fromCompass_eq_speed_witness : mag (fromCompass 5 123) = 5 :=
  mag_fromCompass_eq_speed 5 123 (by norm_num)

/-- C8: for every non-zero input vector, the bearing returned by `toCompass`
lies in `[0, 360)` and equals `(90 - degrees (arctan2 y x)) mod 360`, and the
speed component equals the vector's Euclidean norm. -/
theorem toCompass_spec (v : ℝ × ℝ) (hv : v ≠ 0) :
    0 ≤ (toCompass v).2 ∧ (toCompass v).2 < 360 ∧
    (toCompass v).2 = fmod (90 - degrees (arctan2 v.2 v.1)) 360 ∧
    (toCompass v).1 = Complex.abs (↑v.1 + ↑v.2 * Complex.I) := by
  refine ⟨fmod_nonneg (by norm_num), fmod_lt (by norm_num), rfl, ?_⟩
  show Real.sqrt (v.1 ^ 2 + v.2 ^ 2) = _
  rw [Complex.abs_apply, Complex.normSq_add_mul_I]

/-- C8 witness: the `toCompass` specification at the concrete vector (3, 4). -/
theorem toCompass_spec_witness :
    0 ≤ (toCompass (3, 4)).2 ∧ (toCompass (3, 4)).2 < 360 ∧
    (toCompass (3, 4)).2 = fmod (90 - degrees (arctan2 4 3)) 360 ∧
    (toCompass (3, 4)).1 = Complex.abs (3 + 4 * Complex.I) := by
  have h := toCompass_spec (3, 4) (by norm_num [Prod.ext_iff])
  simpa using h

/-- C3 (code evaluated at the failing input): with the observation (140, 192)
supplied twice, the first chord `p1 = g1 - g2` computed by `calculate` is the
zero vector, so the slope step evaluates `-p1[0]/p1[1] = -0/0` — in IEEE
arithmetic a silent NaN that contaminates the returned result. The code
raises no `DegenerateGeometry` (nor any other) validation failure. -/
theorem identical_observations_zero_chord :
    vsub (fromCompass 140 192) (fromCompass 140 192) = (0, 0) ∧
    (vsub (fromCompass 140 192) (fromCompass 140 192)).2 = 0 := by
  constructor
  · simp [vsub, Prod.ext_iff]
  · simp [vsub]

/-- C4 (code evaluated at the failing input): for the collinear tracks
0°, 180°, 0° — observations (100, 0), (100, 180), (120, 0) — the two bisector
slopes computed by `calculate` are equal while the intercepts differ, so the
intersection step evaluates `(bq2 - bq1)/(mq1 - mq2)` with zero divisor and
nonzero dividend — in IEEE arithmetic a silent infinity that contaminates the
returned result. The code raises no named `DegenerateGeometry` failure. -/
theorem collinear_tracks_parallel_bisectors :
    mq (vsub (fromCompass 100 0) (fromCompass 100 180)) =
      mq (vsub (fromCompass 100 0) (fromCompass 120 0)) ∧
    bq (vsub (fromCompass 100 0) (fromCompass 120 0)) -
      bq (vsub (fromCompass 100 0) (fromCompass 100 180)) ≠ 0 := by
  rw [fromCompass_track_zero, fromCompass_track_180, fromCompass_track_zero]
  constructor
  · norm_num [mq, vsub]
  · norm_num [bq, mq, vsub]

/-- C5: for a non-degenerate input whose three ground vectors all have the
same magnitude — between them they lie on a circle centred at the origin, so
the true wind is exactly (0, 0) — `calculate` returns wind (0, 0), each
output heading equal to the corresponding input track, and true airspeed
equal to the (common) groundspeed; over the reals these equalities are
exact. -/
theorem zero_wind_cancels (s t1 t2 t3 : ℝ) (hs : 0 < s)
    (h10 : 0 ≤ t1) (h11 : t1 < 360) (h20 : 0 ≤ t2) (h21 : t2 < 360)
    (h30 : 0 ≤ t3) (h31 : t3 < 360)
    (hnd : NonDeg (fromCompass s t1) (fromCompass s t2) (fromCompass s t3)) :
    calculate (s, t1) (s, t2) (s, t3) = (s, (0, 0), (t1, t2, t3)) := by
  have hcenter := a1_fromCompass_eq_g1 hnd
  have hwind : wind (fromCompass s t1) (fromCompass s t2) (fromCompass s t3) =
      (0, 0) := by
    rw [wind, hcenter]
    simp [vsub]
  have ha2 : a2 (fromCompass s t1) (fromCompass s t2) (fromCompass s t3) =
      fromCompass s t2 := by
    rw [a2, hwind]
    simp [vsub]
  have ha3 : a3 (fromCompass s t1) (fromCompass s t2) (fromCompass s t3) =
      fromCompass s t3 := by
    rw [a3, hwind]
    simp [vsub]
  have htas : tas (fromCompass s t1) (fromCompass s t2) (fromCompass s t3) = s := by
    rw [tas, hcenter, mag_fromCompass hs.le]
  show (tas (fromCompass s t1) (fromCompass s t2) (fromCompass s t3),
      wind (fromCompass s t1) (fromCompass s t2) (fromCompass s t3),
      ((toCompass (a1 (fromCompass s t1) (fromCompass s t2) (fromCompass s t3))).2,
       (toCompass (a2 (fromCompass s t1) (fromCompass s t2) (fromCompass s t3))).2,
       (toCompass (a3 (fromCompass s t1) (fromCompass s t2) (fromCompass s t3))).2)) = _
  rw [htas, hwind, hcenter, ha2, ha3, toCompass_fromCompass hs h10 h11,
    toCompass_fromCompass hs h20 h21, toCompass_fromCompass hs h30 h31]

/-- C5 witness: the zero-wind property at the concrete equal-speed input
(100, 0°), (100, 90°), (100, 180°). -/
theorem zero_wind_cancels_witness :
    calculate (100, 0) (100, 90) (100, 180) = (100, (0, 0), (0, 90, 180)) := by
  apply zero_wind_cancels 100 0 90 180 (by norm_num) (by norm_num) (by norm_num)
    (by norm_num) (by norm_num) (by norm_num) (by norm_num)
  rw [NonDeg, fromCompass_track_zero, fromCompass_track_90, fromCompass_track_180]
  norm_num [vsub, mq]

/-- C9: for every non-degenerate triple of ground vectors, the three air
vectors `a1` (the circle centre), `a2 = g2 - w` and `a3 = g3 - w` computed by
`calculate` have exactly the same Euclidean magnitude, and the returned true
airspeed equals the magnitude of each of them. -/
theorem air_vectors_equal_magnitude {g1 g2 g3 : ℝ × ℝ} (hnd : NonDeg g1 g2 g3) :
    mag (a1 g1 g2 g3) = mag (a2 g1 g2 g3) ∧
    mag (a1 g1 g2 g3) = mag (a3 g1 g2 g3) ∧
    tas g1 g2 g3 = mag (a1 g1 g2 g3) ∧
    tas g1 g2 g3 = mag (a2 g1 g2 g3) ∧
    tas g1 g2 g3 = mag (a3 g1 g2 g3) := by
  obtain ⟨hp1, hp2, hm⟩ := hnd
  have hm2 : mag (a1 g1 g2 g3) = mag (a2 g1 g2 g3) := by
    rw [mag, mag, sq_mag_a2_eq g3 hp1]
  have hm3 : mag (a1 g1 g2 g3) = mag (a3 g1 g2 g3) := by
    rw [mag, mag, sq_mag_a3_eq g2 hp2 hm]
  exact ⟨hm2, hm3, rfl, hm2, hm3⟩

/-- C9 witness: equal air-vector magnitudes at the concrete non-degenerate
triple of ground vectors (0, 100), (100, 0), (0, -100). -/
theorem air_vectors_equal_magnitude_witness :
    mag (a1 (0, 100) (100, 0) (0, -100)) = mag (a2 (0, 100) (100, 0) (0, -100)) ∧
    mag (a1 (0, 100) (100, 0) (0, -100)) = mag (a3 (0, 100) (100, 0) (0, -100)) ∧
    tas (0, 100) (100, 0) (0, -100) = mag (a1 (0, 100) (100, 0) (0, -100)) ∧
    tas (0, 100) (100, 0) (0, -100) = mag (a2 (0, 100) (100, 0) (0, -100)) ∧
    tas (0, 100) (100, 0) (0, -100) = mag (a3 (0, 100) (100, 0) (0, -100)) :=
  air_vectors_equal_magnitude (by norm_num [NonDeg, vsub, mq])

/-! Concrete evaluations of `fromCompass` at the diagonal tracks, used for
the rotation-symmetry counterexample. -/

theorem fromCompass_track_45 (s : ℝ) :
    fromCompass s 45 = (s * (Real.sqrt 2 / 2), s * (Real.sqrt 2 / 2)) := by
  rw [fromCompass, show radians (90 - 45) = Real.pi / 4 by rw [radians]; ring,
    cartesian, Real.cos_pi_div_four, Real.sin_pi_div_four]

theorem fromCompass_track_135 (s : ℝ) :
    fromCompass s 135 = (s * (Real.sqrt 2 / 2), -(s * (Real.sqrt 2 / 2))) := by
  rw [fromCompass, show radians (90 - 135) = -(Real.pi / 4) by rw [radians]; ring,
    cartesian, Real.cos_neg, Real.sin_neg, Real.cos_pi_div_four, Real.sin_pi_div_four]
  exact Prod.ext rfl (by ring)

theorem fromCompass_track_225 (s : ℝ) :
    fromCompass s 225 = (-(s * (Real.sqrt 2 / 2)), -(s * (Real.sqrt 2 / 2))) := by
  rw [fromCompass, show radians (90 - 225) = -(Real.pi - Real.pi / 4) by
      rw [radians]; ring,
    cartesian, Real.cos_neg, Real.sin_neg, Real.cos_pi_sub, Real.sin_pi_sub,
    Real.cos_pi_div_four, Real.sin_pi_div_four]
  exact Prod.ext (by ring) (by ring)

/-- C6 counterexample: at the non-degenerate zero-wind input
(100, 0°), (100, 90°), (100, 180°) with offset d = 45, both the original and
the shifted run are non-degenerate, yet the wind vector is (0, 0) in both
runs, so the reported wind from-direction `toCompass(-w)[1]` is 90° in both —
it is not shifted by 45° (which would give 135°). The claim as stated
therefore fails for inputs whose wind is zero. -/
theorem rotation_symmetry_fails_for_zero_wind :
    (toCompass (vneg (wind (fromCompass 100 (0 + 45)) (fromCompass 100 (90 + 45))
        (fromCompass 100 (180 + 45))))).2 ≠
      fmod ((toCompass (vneg (wind (fromCompass 100 0) (fromCompass 100 90)
        (fromCompass 100 180)))).2 + 45) 360 := by
  have hs2 : (0 : ℝ) < Real.sqrt 2 := Real.sqrt_pos.2 (by norm_num)
  have hnd : NonDeg (fromCompass 100 0) (fromCompass 100 90) (fromCompass 100 180) := by
    rw [NonDeg, fromCompass_track_zero, fromCompass_track_90, fromCompass_track_180]
    norm_num [vsub, mq]
  have hnd' : NonDeg (fromCompass 100 (0 + 45)) (fromCompass 100 (90 + 45))
      (fromCompass 100 (180 + 45)) := by
    rw [show (0 : ℝ) + 45 = 45 by norm_num, show (90 : ℝ) + 45 = 135 by norm_num,
      show (180 : ℝ) + 45 = 225 by norm_num, NonDeg, fromCompass_track_45,
      fromCompass_track_135, fromCompass_track_225]
    refine ⟨?_, ?_, ?_⟩
    · show 100 * (Real.sqrt 2 / 2) - -(100 * (Real.sqrt 2 / 2)) ≠ 0
      nlinarith
    · show 100 * (Real.sqrt 2 / 2) - -(100 * (Real.sqrt 2 / 2)) ≠ 0
      nlinarith
    · show -(100 * (Real.sqrt 2 / 2) - 100 * (Real.sqrt 2 / 2)) /
          (100 * (Real.sqrt 2 / 2) - -(100 * (Real.sqrt 2 / 2))) ≠
        -(100 * (Real.sqrt 2 / 2) - -(100 * (Real.sqrt 2 / 2))) /
          (100 * (Real.sqrt 2 / 2) - -(100 * (Real.sqrt 2 / 2)))
      have hc : 100 * (Real.sqrt 2 / 2) - -(100 * (Real.sqrt 2 / 2)) ≠ 0 := by
        nlinarith
      rw [show 100 * (Real.sqrt 2 / 2) - 100 * (Real.sqrt 2 / 2) = 0 by ring, neg_zero,
        zero_div, neg_div, div_self hc]
      norm_num
  have hwind : wind (fromCompass 100 0) (fromCompass 100 90) (fromCompass 100 180) =
      (0, 0) := by
    rw [wind, a1_fromCompass_eq_g1 hnd]
    simp [vsub]
  have hwind' : wind (fromCompass 100 (0 + 45)) (fromCompass 100 (90 + 45))
      (fromCompass 100 (180 + 45)) = (0, 0) := by
    rw [wind, a1_fromCompass_eq_g1 hnd']
    simp [vsub]
  rw [hwind, hwind', show vneg ((0 : ℝ), (0 : ℝ)) = (0, 0) by simp [vneg],
    toCompass_origin]
  show (90 : ℝ) ≠ fmod (90 + 45) 360
  rw [show (90 : ℝ) + 45 = 135 by norm_num,
    fmod_eq_self (by norm_num) (by norm_num)]
  norm_num

/-- C6 (amended): for every input non-degenerate in both the original and the
shifted run, shifting all three input bearings by a constant offset `d`
leaves the true airspeed and the wind speed unchanged, shifts each output
heading by `d` modulo 360, and — provided the wind vector is nonzero, the one
case the counterexample excludes — shifts the reported wind from-direction by
`d` modulo 360; over the reals these equalities are exact. -/
theorem rotation_symmetry (s1 s2 s3 t1 t2 t3 d : ℝ)
    (hnd : NonDeg (fromCompass s1 t1) (fromCompass s2 t2) (fromCompass s3 t3))
    (hnd' : NonDeg (fromCompass s1 (t1 + d)) (fromCompass s2 (t2 + d))
      (fromCompass s3 (t3 + d))) :
    tas (fromCompass s1 (t1 + d)) (fromCompass s2 (t2 + d)) (fromCompass s3 (t3 + d)) =
      tas (fromCompass s1 t1) (fromCompass s2 t2) (fromCompass s3 t3) ∧
    mag (wind (fromCompass s1 (t1 + d)) (fromCompass s2 (t2 + d))
        (fromCompass s3 (t3 + d))) =
      mag (wind (fromCompass s1 t1) (fromCompass s2 t2) (fromCompass s3 t3)) ∧
    (toCompass (a1 (fromCompass s1 (t1 + d)) (fromCompass s2 (t2 + d))
        (fromCompass s3 (t3 + d)))).2 =
      fmod ((toCompass (a1 (fromCompass s1 t1) (fromCompass s2 t2)
        (fromCompass s3 t3))).2 + d) 360 ∧
    (toCompass (a2 (fromCompass s1 (t1 + d)) (fromCompass s2 (t2 + d))
        (fromCompass s3 (t3 + d)))).2 =
      fmod ((toCompass (a2 (fromCompass s1 t1) (fromCompass s2 t2)
        (fromCompass s3 t3))).2 + d) 360 ∧
    (toCompass (a3 (fromCompass s1 (t1 + d)) (fromCompass s2 (t2 + d))
        (fromCompass s3 (t3 + d)))).2 =
      fmod ((toCompass (a3 (fromCompass s1 t1) (fromCompass s2 t2)
        (fromCompass s3 t3))).2 + d) 360 ∧
    (wind (fromCompass s1 t1) (fromCompass s2 t2) (fromCompass s3 t3) ≠ (0, 0) →
      (toCompass (vneg (wind (fromCompass s1 (t1 + d)) (fromCompass s2 (t2 + d))
        (fromCompass s3 (t3 + d))))).2 =
      fmod ((toCompass (vneg (wind (fromCompass s1 t1) (fromCompass s2 t2)
        (fromCompass s3 t3)))).2 + d) 360) := by
  obtain ⟨hp1, hp2, hm⟩ := hnd
  rw [fromCompass_shift s1 t1 d, fromCompass_shift s2 t2 d,
    fromCompass_shift s3 t3 d] at hnd' ⊢
  have hA1 := a1_rot (-(radians d)) hnd' hp1 hp2 hm
  have hW := wind_rot (-(radians d)) hnd' hp1 hp2 hm
  have hA2 : a2 (rot (-(radians d)) (fromCompass s1 t1))
      (rot (-(radians d)) (fromCompass s2 t2))
      (rot (-(radians d)) (fromCompass s3 t3)) =
      rot (-(radians d)) (a2 (fromCompass s1 t1) (fromCompass s2 t2)
        (fromCompass s3 t3)) := by
    rw [a2, a2, hW, rot_vsub]
  have hA3 : a3 (rot (-(radians d)) (fromCompass s1 t1))
      (rot (-(radians d)) (fromCompass s2 t2))
      (rot (-(radians d)) (fromCompass s3 t3)) =
      rot (-(radians d)) (a3 (fromCompass s1 t1) (fromCompass s2 t2)
        (fromCompass s3 t3)) := by
    rw [a3, a3, hW, rot_vsub]
  refine ⟨?_, ?_, ?_, ?_, ?_, ?_⟩
  · rw [tas, tas, hA1, rot_mag]
  · rw [hW, rot_mag]
  · rw [hA1, toCompass_rot (a1_ne_zero hp1) d]
  · rw [hA2, toCompass_rot (a2_ne_zero hp1) d]
  · rw [hA3, toCompass_rot (a3_ne_zero hp1 hp2 hm) d]
  · intro hw
    have hvne : ¬((vneg (wind (fromCompass s1 t1) (fromCompass s2 t2)
        (fromCompass s3 t3))).1 = 0 ∧
        (vneg (wind (fromCompass s1 t1) (fromCompass s2 t2)
          (fromCompass s3 t3))).2 = 0) := by
      rintro ⟨h1, h2⟩
      apply hw
      rw [vneg] at h1 h2
      exact Prod.ext (by simpa using h1) (by simpa using h2)
    rw [hW, rot_vneg, toCompass_rot hvne d]

/-- C6 witness: the amended rotation-symmetry statement applied at the
concrete input (100, 0°), (100, 90°), (100, 180°) with offset d = 360 (both
runs are non-degenerate, the shifted one by 360-degree periodicity). -/
theorem rotation_symmetry_witness :
    tas (fromCompass 100 (0 + 360)) (fromCompass 100 (90 + 360))
        (fromCompass 100 (180 + 360)) =
      tas (fromCompass 100 0) (fromCompass 100 90) (fromCompass 100 180) ∧
    mag (wind (fromCompass 100 (0 + 360)) (fromCompass 100 (90 + 360))
        (fromCompass 100 (180 + 360))) =
      mag (wind (fromCompass 100 0) (fromCompass 100 90) (fromCompass 100 180)) ∧
    (toCompass (a1 (fromCompass 100 (0 + 360)) (fromCompass 100 (90 + 360))
        (fromCompass 100 (180 + 360)))).2 =
      fmod ((toCompass (a1 (fromCompass 100 0) (fromCompass 100 90)
        (fromCompass 100 180))).2 + 360) 360 ∧
    (toCompass (a2 (fromCompass 100 (0 + 360)) (fromCompass 100 (90 + 360))
        (fromCompass 100 (180 + 360)))).2 =
      fmod ((toCompass (a2 (fromCompass 100 0) (fromCompass 100 90)
        (fromCompass 100 180))).2 + 360) 360 ∧
    (toCompass (a3 (fromCompass 100 (0 + 360)) (fromCompass 100 (90 + 360))
        (fromCompass 100 (180 + 360)))).2 =
      fmod ((toCompass (a3 (fromCompass 100 0) (fromCompass 100 90)
        (fromCompass 100 180))).2 + 360) 360 ∧
    (wind (fromCompass 100 0) (fromCompass 100 90) (fromCompass 100 180) ≠ (0, 0) →
      (toCompass (vneg (wind (fromCompass 100 (0 + 360)) (fromCompass 100 (90 + 360))
        (fromCompass 100 (180 + 360))))).2 =
      fmod ((toCompass (vneg (wind (fromCompass 100 0) (fromCompass 100 90)
        (fromCompass 100 180)))).2 + 360) 360) := by
  have hnd : NonDeg (fromCompass 100 0) (fromCompass 100 90) (fromCompass 100 180) := by
    rw [NonDeg, fromCompass_track_zero, fromCompass_track_90, fromCompass_track_180]
    norm_num [vsub, mq]
  have hnd' : NonDeg (fromCompass 100 (0 + 360)) (fromCompass 100 (90 + 360))
      (fromCompass 100 (180 + 360)) := by
    rw [fromCompass_add_360, fromCompass_add_360, fromCompass_add_360]
    exact hnd
  exact rotation_symmetry 100 100 100 0 90 180 360 hnd hnd'

/-! Numeric machinery for the known-answer test: Taylor bounds for sin and
cos on a rational interval, double-angle propagation, interval bounds for
products and quotients, and the quadrant formulas of the complex argument. -/

theorem sin_taylor {q lo hi : ℝ} (h0 : 0 ≤ lo) (h1 : lo ≤ q) (h2 : q ≤ hi)
    (h3 : hi ≤ 1) :
    lo - hi ^ 3 / 6 - hi ^ 4 * (5 / 96) ≤ Real.sin q ∧
      Real.sin q ≤ hi - lo ^ 3 / 6 + hi ^ 4 * (5 / 96) := by
  have hq0 : 0 ≤ q := h0.trans h1
  have habs : |q| ≤ 1 := by
    rw [abs_of_nonneg hq0]
    exact h2.trans h3
  have hb := Real.sin_bound habs
  rw [abs_of_nonneg hq0] at hb
  have hb1 := abs_le.1 hb
  have e3 : q ^ 3 ≤ hi ^ 3 := pow_le_pow_left hq0 h2 3
  have e3b : lo ^ 3 ≤ q ^ 3 := pow_le_pow_left h0 h1 3
  have e4 : q ^ 4 ≤ hi ^ 4 := pow_le_pow_left hq0 h2 4
  constructor
  · linarith [hb1.1]
  · linarith [hb1.2]

theorem cos_taylor {q lo hi : ℝ} (h0 : 0 ≤ lo) (h1 : lo ≤ q) (h2 : q ≤ hi)
    (h3 : hi ≤ 1) :
    1 - hi ^ 2 / 2 - hi ^ 4 * (5 / 96) ≤ Real.cos q ∧
      Real.cos q ≤ 1 - lo ^ 2 / 2 + hi ^ 4 * (5 / 96) := by
  have hq0 : 0 ≤ q := h0.trans h1
  have habs : |q| ≤ 1 := by
    rw [abs_of_nonneg hq0]
    exact h2.trans h3
  have hb := Real.cos_bound habs
  rw [abs_of_nonneg hq0] at hb
  have hb1 := abs_le.1 hb
  have e2 : q ^ 2 ≤ hi ^ 2 := pow_le_pow_left hq0 h2 2
  have e2b : lo ^ 2 ≤ q ^ 2 := pow_le_pow_left h0 h1 2
  have e4 : q ^ 4 ≤ hi ^ 4 := pow_le_pow_left hq0 h2 4
  constructor
  · linarith [hb1.1]
  · linarith [hb1.2]

theorem sin_cos_double {q slo shi clo chi : ℝ} (h1 : slo ≤ Real.sin q)
    (h2 : Real.sin q ≤ shi) (h3 : clo ≤ Real.cos q) (h4 : Real.cos q ≤ chi)
    (h5 : 0 ≤ slo) (h6 : 0 ≤ clo) :
    (2 * (slo * clo) ≤ Real.sin (2 * q) ∧ Real.sin (2 * q) ≤ 2 * (shi * chi)) ∧
      2 * clo ^ 2 - 1 ≤ Real.cos (2 * q) ∧ Real.cos (2 * q) ≤ 2 * chi ^ 2 - 1 := by
  rw [Real.sin_two_mul, Real.cos_two_mul]
  refine ⟨⟨?_, ?_⟩, ?_, ?_⟩
  · nlinarith
  · nlinarith
  · nlinarith
  · nlinarith

theorem mul_le_corners {x y xl xh yl yh hi : ℝ} (hx1 : xl ≤ x) (hx2 : x ≤ xh)
    (hy1 : yl ≤ y) (hy2 : y ≤ yh) (c1 : xl * yl ≤ hi) (c2 : xl * yh ≤ hi)
    (c3 : xh * yl ≤ hi) (c4 : xh * yh ≤ hi) : x * y ≤ hi := by
  rcases le_or_lt 0 y with hy | hy
  · rcases le_or_lt 0 xh with hxh | hxh <;> nlinarith
  · rcases le_or_lt 0 xl with hxl | hxl <;> nlinarith

theorem corners_le_mul {x y xl xh yl yh lo : ℝ} (hx1 : xl ≤ x) (hx2 : x ≤ xh)
    (hy1 : yl ≤ y) (hy2 : y ≤ yh) (c1 : lo ≤ xl * yl) (c2 : lo ≤ xl * yh)
    (c3 : lo ≤ xh * yl) (c4 : lo ≤ xh * yh) : lo ≤ x * y := by
  have h := @mul_le_corners (-x) y (-xh) (-xl) yl yh (-lo)
    (by linarith) (by linarith) hy1 hy2
    (by nlinarith) (by nlinarith) (by nlinarith) (by nlinarith)
  nlinarith [h]

theorem div_bounds_neg {n d lo hi : ℝ} (hd : d < 0) (h1 : n ≤ lo * d)
    (h2 : hi * d ≤ n) : lo ≤ n / d ∧ n / d ≤ hi := by
  constructor
  · rw [le_div_iff_of_neg hd]
    exact h1
  · rw [div_le_iff_of_neg hd]
    exact h2

theorem div_bounds_pos {n d lo hi : ℝ} (hd : 0 < d) (h1 : lo * d ≤ n)
    (h2 : n ≤ hi * d) : lo ≤ n / d ∧ n / d ≤ hi := by
  constructor
  · rw [le_div_iff hd]
    exact h1
  · rw [div_le_iff hd]
    exact h2

theorem fmod_eq_self_add {x y : ℝ} (h0 : -y ≤ x) (h1 : x < 0) (hy : 0 < y) :
    fmod x y = x + y := by
  have hfl : ⌊x / y⌋ = -1 := by
    rw [Int.floor_eq_iff]
    constructor
    · push_cast
      rw [le_div_iff hy]
      linarith
    · push_cast
      have := div_neg_of_neg_of_pos h1 hy
      linarith
  rw [fmod, hfl]
  push_cast
  ring

theorem fromCompass_eq (s t : ℝ) :
    fromCompass s t = (s * Real.sin (radians t), s * Real.cos (radians t)) := by
  have h : radians (90 - t) = Real.pi / 2 - radians t := by
    simp only [radians]
    ring
  rw [fromCompass, cartesian, h, Real.cos_pi_div_two_sub, Real.sin_pi_div_two_sub]

theorem degrees_sub_pi (x : ℝ) : degrees (x - Real.pi) = degrees x - 180 := by
  have hpi := Real.pi_ne_zero
  rw [degrees, degrees]
  field_simp
  ring

theorem degrees_add_pi (x : ℝ) : degrees (x + Real.pi) = degrees x + 180 := by
  have hpi := Real.pi_ne_zero
  rw [degrees, degrees]
  field_simp
  ring

theorem degrees_window {x a b : ℝ} (h1 : a * (Real.pi / 180) < x)
    (h2 : x < b * (Real.pi / 180)) : a < degrees x ∧ degrees x < b := by
  have hpi := Real.pi_pos
  have hmono : ∀ y z : ℝ, y < z → degrees y < degrees z := by
    intro y z h
    rw [degrees, degrees]
    exact mul_lt_mul_of_pos_right h (by positivity)
  constructor
  · have h3 := hmono _ _ h1
    rwa [show degrees (a * (Real.pi / 180)) = a from degrees_radians a] at h3
  · have h3 := hmono _ _ h2
    rwa [show degrees (b * (Real.pi / 180)) = b from degrees_radians b] at h3

theorem arcsin_window (u cl ch sl sh : ℝ) (hcl1 : -90 < cl) (hch : ch < 90)
    (hclch : cl < ch) (hsl : Real.sin (cl * (Real.pi / 180)) ≤ sl)
    (hsh : sh ≤ Real.sin (ch * (Real.pi / 180))) (hu1 : sl < u) (hu2 : u < sh) :
    cl * (Real.pi / 180) < Real.arcsin u ∧
      Real.arcsin u < ch * (Real.pi / 180) := by
  have hpi := Real.pi_pos
  constructor
  · rw [Real.lt_arcsin_iff_sin_lt' ⟨by nlinarith, by nlinarith⟩]
    linarith
  · rw [Real.arcsin_lt_iff_lt_sin' ⟨by nlinarith, by nlinarith⟩]
    linarith

theorem arctan2_third_quadrant {X Y : ℝ} (hX : X < 0) (hY : Y < 0) :
    arctan2 Y X = Real.arcsin (-Y / Real.sqrt (X ^ 2 + Y ^ 2)) - Real.pi := by
  rw [arctan2]
  rw [Complex.arg_of_re_neg_of_im_neg (by simpa using hX) (by simpa using hY)]
  have h1 : (-((X : ℂ) + Y * Complex.I)).im = -Y := by simp
  have h2 : Complex.abs ((X : ℂ) + Y * Complex.I) = Real.sqrt (X ^ 2 + Y ^ 2) := by
    rw [Complex.abs_apply, Complex.normSq_add_mul_I]
  rw [h1, h2]

theorem arctan2_second_quadrant {X Y : ℝ} (hX : X < 0) (hY : 0 ≤ Y) :
    arctan2 Y X = Real.arcsin (-Y / Real.sqrt (X ^ 2 + Y ^ 2)) + Real.pi := by
  rw [arctan2]
  rw [Complex.arg_of_re_neg_of_im_nonneg (by simpa using hX) (by simpa using hY)]
  have h1 : (-((X : ℂ) + Y * Complex.I)).im = -Y := by simp
  have h2 : Complex.abs ((X : ℂ) + Y * Complex.I) = Real.sqrt (X ^ 2 + Y ^ 2) := by
    rw [Complex.abs_apply, Complex.normSq_add_mul_I]
  rw [h1, h2]

theorem arctan2_right_half {X Y : ℝ} (hX : 0 ≤ X) :
    arctan2 Y X = Real.arcsin (Y / Real.sqrt (X ^ 2 + Y ^ 2)) := by
  rw [arctan2]
  rw [Complex.arg_of_re_nonneg (by simpa using hX)]
  have h1 : ((X : ℂ) + Y * Complex.I).im = Y := by simp
  have h2 : Complex.abs ((X : ℂ) + Y * Complex.I) = Real.sqrt (X ^ 2 + Y ^ 2) := by
    rw [Complex.abs_apply, Complex.normSq_add_mul_I]
  rw [h1, h2]

theorem g_evals :
    fromCompass 140 192 =
      (-(140 * Real.sin (12 * (Real.pi / 180))), -(140 * Real.cos (12 * (Real.pi / 180)))) ∧
    fromCompass 112 283 =
      (-(112 * Real.cos (13 * (Real.pi / 180))), 112 * Real.sin (13 * (Real.pi / 180))) ∧
    fromCompass 120 20 =
      (120 * Real.sin (20 * (Real.pi / 180)), 120 * Real.cos (20 * (Real.pi / 180))) := by
  refine ⟨?_, ?_, ?_⟩
  · rw [fromCompass_eq, show radians 192 = Real.pi + 12 * (Real.pi / 180) by
      rw [radians]; ring]
    refine Prod.ext ?_ ?_
    · show 140 * Real.sin (Real.pi + 12 * (Real.pi / 180)) = _
      rw [Real.sin_add, Real.sin_pi, Real.cos_pi]
      ring
    · show 140 * Real.cos (Real.pi + 12 * (Real.pi / 180)) = _
      rw [Real.cos_add, Real.sin_pi, Real.cos_pi]
      ring
  · rw [fromCompass_eq, show radians 283 = Real.pi + (Real.pi / 2 + 13 * (Real.pi / 180)) by
      rw [radians]; ring]
    refine Prod.ext ?_ ?_
    · show 112 * Real.sin (Real.pi + (Real.pi / 2 + 13 * (Real.pi / 180))) = _
      rw [Real.sin_add, Real.sin_pi, Real.cos_pi, Real.sin_add, Real.sin_pi_div_two,
        Real.cos_pi_div_two]
      ring
    · show 112 * Real.cos (Real.pi + (Real.pi / 2 + 13 * (Real.pi / 180))) = _
      rw [Real.cos_add, Real.sin_pi, Real.cos_pi, Real.cos_add, Real.sin_pi_div_two,
        Real.cos_pi_div_two]
      ring
  · rw [fromCompass_eq, show radians 20 = 20 * (Real.pi / 180) by rw [radians]]

theorem trig_12 :
    (0.2079115740968 : ℝ) ≤ Real.sin (12 * (Real.pi / 180)) ∧ Real.sin (12 * (Real.pi / 180)) ≤ (0.20791174403882 : ℝ) ∧
    (0.97814689641344 : ℝ) ≤ Real.cos (12 * (Real.pi / 180)) ∧ Real.cos (12 * (Real.pi / 180)) ≤ (0.97814768752139 : ℝ) := by
  have hpi1 := Real.pi_gt_3141592
  have hpi2 := Real.pi_lt_3141593
  have hql : (0.0130899666666666 : ℝ) ≤ 12 / 16 * (Real.pi / 180) := by linarith
  have hqh : 12 / 16 * (Real.pi / 180) ≤ (0.0130899708333334 : ℝ) := by linarith
  have hts := sin_taylor (by norm_num) hql hqh (by norm_num)
  have htc := cos_taylor (by norm_num) hql hqh (by norm_num)
  have hs0 : (0.01308959131556 : ℝ) ≤ Real.sin (12 / 16 * (Real.pi / 180)) ∧ Real.sin (12 / 16 * (Real.pi / 180)) ≤ (0.01308959854092 : ℝ) :=
    ⟨le_trans (by norm_num) hts.1, le_trans hts.2 (by norm_num)⟩
  have hc0 : (0.99991432480262 : ℝ) ≤ Real.cos (12 / 16 * (Real.pi / 180)) ∧ Real.cos (12 / 16 * (Real.pi / 180)) ≤ (0.9999143279155 : ℝ) :=
    ⟨le_trans (by norm_num) htc.1, le_trans htc.2 (by norm_num)⟩
  have hd1 := sin_cos_double hs0.1 hs0.2 hc0.1 hc0.2 (by norm_num) (by norm_num)
  have hs1 : (0.02617693972448 : ℝ) ≤ Real.sin (2 * (12 / 16 * (Real.pi / 180))) ∧ Real.sin (2 * (12 / 16 * (Real.pi / 180))) ≤ (0.02617695425546 : ℝ) :=
    ⟨le_trans (by norm_num) hd1.1.1, le_trans hd1.1.2 (by norm_num)⟩
  have hc1 : (0.99965731389095 : ℝ) ≤ Real.cos (2 * (12 / 16 * (Real.pi / 180))) ∧ Real.cos (2 * (12 / 16 * (Real.pi / 180))) ≤ (0.99965732634142 : ℝ) :=
    ⟨le_trans (by norm_num) hd1.2.1, le_trans hd1.2.2 (by norm_num)⟩
  have hd2 := sin_cos_double hs1.1 hs1.2 hc1.1 hc1.2 (by norm_num) (by norm_num)
  have hs2 : (0.05233593850171 : ℝ) ≤ Real.sin (2 * (2 * (12 / 16 * (Real.pi / 180)))) ∧ Real.sin (2 * (2 * (12 / 16 * (Real.pi / 180)))) ≤ (0.05233596820555 : ℝ) :=
    ⟨le_trans (by norm_num) hd2.1.1, le_trans hd2.1.2 (by norm_num)⟩
  have hc2 : (0.99862949043133 : ℝ) ≤ Real.cos (2 * (2 * (12 / 16 * (Real.pi / 180)))) ∧ Real.cos (2 * (2 * (12 / 16 * (Real.pi / 180)))) ≤ (0.99862954021616 : ℝ) :=
    ⟨le_trans (by norm_num) hd2.2.1, le_trans hd2.2.2 (by norm_num)⟩
  have hd3 := sin_cos_double hs2.1 hs2.2 hc2.1 hc2.2 (by norm_num) (by norm_num)
  have hs3 : (0.10452842319441 : ℝ) ≤ Real.sin (2 * (2 * (2 * (12 / 16 * (Real.pi / 180))))) ∧ Real.sin (2 * (2 * (2 * (12 / 16 * (Real.pi / 180))))) ≤ (0.10452848773176 : ℝ) :=
    ⟨le_trans (by norm_num) hd3.1.1, le_trans hd3.1.2 (by norm_num)⟩
  have hc3 : (0.99452171831827 : ℝ) ≤ Real.cos (2 * (2 * (2 * (12 / 16 * (Real.pi / 180))))) ∧ Real.cos (2 * (2 * (2 * (12 / 16 * (Real.pi / 180))))) ≤ (0.99452191718468 : ℝ) :=
    ⟨le_trans (by norm_num) hd3.2.1, le_trans hd3.2.2 (by norm_num)⟩
  have hd4 := sin_cos_double hs3.1 hs3.2 hc3.1 hc3.2 (by norm_num) (by norm_num)
  have hs4 : (0.2079115740968 : ℝ) ≤ Real.sin (2 * (2 * (2 * (2 * (12 / 16 * (Real.pi / 180)))))) ∧ Real.sin (2 * (2 * (2 * (2 * (12 / 16 * (Real.pi / 180)))))) ≤ (0.20791174403882 : ℝ) :=
    ⟨le_trans (by norm_num) hd4.1.1, le_trans hd4.1.2 (by norm_num)⟩
  have hc4 : (0.97814689641344 : ℝ) ≤ Real.cos (2 * (2 * (2 * (2 * (12 / 16 * (Real.pi / 180)))))) ∧ Real.cos (2 * (2 * (2 * (2 * (12 / 16 * (Real.pi / 180)))))) ≤ (0.97814768752139 : ℝ) :=
    ⟨le_trans (by norm_num) hd4.2.1, le_trans hd4.2.2 (by norm_num)⟩
  have hfin : 12 * (Real.pi / 180) = 2 * (2 * (2 * (2 * (12 / 16 * (Real.pi / 180))))) := by ring
  rw [hfin]
  exact ⟨hs4.1, hs4.2, hc4.1, hc4.2⟩

theorem trig_13 :
    (0.22495090088256 : ℝ) ≤ Real.sin (13 * (Real.pi / 180)) ∧ Real.sin (13 * (Real.pi / 180)) ≤ (0.22495112137615 : ℝ) ∧
    (0.97436909688903 : ℝ) ≤ Real.cos (13 * (Real.pi / 180)) ∧ Real.cos (13 * (Real.pi / 180)) ≤ (0.9743701823283 : ℝ) := by
  have hpi1 := Real.pi_gt_3141592
  have hpi2 := Real.pi_lt_3141593
  have hql : (0.0141807972222222 : ℝ) ≤ 13 / 16 * (Real.pi / 180) := by linarith
  have hqh : 13 / 16 * (Real.pi / 180) ≤ (0.0141808017361112 : ℝ) := by linarith
  have hts := sin_taylor (by norm_num) hql hqh (by norm_num)
  have htc := cos_taylor (by norm_num) hql hqh (by norm_num)
  have hs0 : (0.01418031983429 : ℝ) ≤ Real.sin (13 / 16 * (Real.pi / 180)) ∧ Real.sin (13 / 16 * (Real.pi / 180)) ≤ (0.01418032856107 : ℝ) :=
    ⟨le_trans (by norm_num) hts.1, le_trans hts.2 (by norm_num)⟩
  have hc0 : (0.99989945032484 : ℝ) ≤ Real.cos (13 / 16 * (Real.pi / 180)) ∧ Real.cos (13 / 16 * (Real.pi / 180)) ≤ (0.99989945460129 : ℝ) :=
    ⟨le_trans (by norm_num) htc.1, le_trans htc.2 (by norm_num)⟩
  have hd1 := sin_cos_double hs0.1 hs0.2 hc0.1 hc0.2 (by norm_num) (by norm_num)
  have hs1 : (0.02835778801547 : ℝ) ≤ Real.sin (2 * (13 / 16 * (Real.pi / 180))) ∧ Real.sin (2 * (13 / 16 * (Real.pi / 180))) ≤ (0.02835780558857 : ℝ) :=
    ⟨le_trans (by norm_num) hd1.1.1, le_trans hd1.1.2 (by norm_num)⟩
  have hc1 : (0.99959782151983 : ℝ) ≤ Real.cos (2 * (13 / 16 * (Real.pi / 180))) ∧ Real.cos (2 * (13 / 16 * (Real.pi / 180))) ≤ (0.99959783862392 : ℝ) :=
    ⟨le_trans (by norm_num) hd1.2.1, le_trans hd1.2.2 (by norm_num)⟩
  have hd2 := sin_cos_double hs1.1 hs1.2 hc1.1 hc1.2 (by norm_num) (by norm_num)
  have hs2 : (0.05669276624676 : ℝ) ≤ Real.sin (2 * (2 * (13 / 16 * (Real.pi / 180)))) ∧ Real.sin (2 * (2 * (13 / 16 * (Real.pi / 180)))) ≤ (0.05669280234891 : ℝ) :=
    ⟨le_trans (by norm_num) hd2.1.1, le_trans hd2.1.2 (by norm_num)⟩
  have hc2 : (0.99839160957437 : ℝ) ≤ Real.cos (2 * (2 * (13 / 16 * (Real.pi / 180)))) ∧ Real.cos (2 * (2 * (13 / 16 * (Real.pi / 180)))) ≤ (0.99839167796323 : ℝ) :=
    ⟨le_trans (by norm_num) hd2.2.1, le_trans hd2.2.2 (by norm_num)⟩
  have hd3 := sin_cos_double hs2.1 hs2.2 hc2.1 hc2.2 (by norm_num) (by norm_num)
  have hs3 : (0.11320316428865 : ℝ) ≤ Real.sin (2 * (2 * (2 * (13 / 16 * (Real.pi / 180))))) ∧ Real.sin (2 * (2 * (2 * (13 / 16 * (Real.pi / 180))))) ≤ (0.11320324413114 : ℝ) :=
    ⟨le_trans (by norm_num) hd3.1.1, le_trans hd3.1.2 (by norm_num)⟩
  have hc3 : (0.993571612137 : ℝ) ≤ Real.cos (2 * (2 * (2 * (13 / 16 * (Real.pi / 180))))) ∧ Real.cos (2 * (2 * (2 * (13 / 16 * (Real.pi / 180))))) ≤ (0.99357188525247 : ℝ) :=
    ⟨le_trans (by norm_num) hd3.2.1, le_trans hd3.2.2 (by norm_num)⟩
  have hd4 := sin_cos_double hs3.1 hs3.2 hc3.1 hc3.2 (by norm_num) (by norm_num)
  have hs4 : (0.22495090088256 : ℝ) ≤ Real.sin (2 * (2 * (2 * (2 * (13 / 16 * (Real.pi / 180)))))) ∧ Real.sin (2 * (2 * (2 * (2 * (13 / 16 * (Real.pi / 180)))))) ≤ (0.22495112137615 : ℝ) :=
    ⟨le_trans (by norm_num) hd4.1.1, le_trans hd4.1.2 (by norm_num)⟩
  have hc4 : (0.97436909688903 : ℝ) ≤ Real.cos (2 * (2 * (2 * (2 * (13 / 16 * (Real.pi / 180)))))) ∧ Real.cos (2 * (2 * (2 * (2 * (13 / 16 * (Real.pi / 180)))))) ≤ (0.9743701823283 : ℝ) :=
    ⟨le_trans (by norm_num) hd4.2.1, le_trans hd4.2.2 (by norm_num)⟩
  have hfin : 13 * (Real.pi / 180) = 2 * (2 * (2 * (2 * (13 / 16 * (Real.pi / 180))))) := by ring
  rw [hfin]
  exact ⟨hs4.1, hs4.2, hc4.1, hc4.2⟩

theorem trig_20 :
    (0.34201926240768 : ℝ) ≤ Real.sin (20 * (Real.pi / 180)) ∧ Real.sin (20 * (Real.pi / 180)) ≤ (0.34202043748577 : ℝ) ∧
    (0.93968727996127 : ℝ) ≤ Real.cos (20 * (Real.pi / 180)) ∧ Real.cos (20 * (Real.pi / 180)) ≤ (0.93969323763358 : ℝ) := by
  have hpi1 := Real.pi_gt_3141592
  have hpi2 := Real.pi_lt_3141593
  have hql : (0.0218166111111111 : ℝ) ≤ 20 / 16 * (Real.pi / 180) := by linarith
  have hqh : 20 / 16 * (Real.pi / 180) ≤ (0.0218166180555556 : ℝ) := by linarith
  have hts := sin_taylor (by norm_num) hql hqh (by norm_num)
  have htc := cos_taylor (by norm_num) hql hqh (by norm_num)
  have hs0 : (0.02181486865489 : ℝ) ≤ Real.sin (20 / 16 * (Real.pi / 180)) ∧ Real.sin (20 / 16 * (Real.pi / 180)) ≤ (0.02181489919918 : ℝ) :=
    ⟨le_trans (by norm_num) hts.1, le_trans hts.2 (by norm_num)⟩
  have hc0 : (0.99976200578921 : ℝ) ≤ Real.cos (20 / 16 * (Real.pi / 180)) ∧ Real.cos (20 / 16 * (Real.pi / 180)) ≤ (0.99976202953891 : ℝ) :=
    ⟨le_trans (by norm_num) htc.1, le_trans htc.2 (by norm_num)⟩
  have hd1 := sin_cos_double hs0.1 hs0.2 hc0.1 hc0.2 (by norm_num) (by norm_num)
  have hs1 : (0.04361935368488 : ℝ) ≤ Real.sin (2 * (20 / 16 * (Real.pi / 180))) ∧ Real.sin (2 * (20 / 16 * (Real.pi / 180))) ≤ (0.04361941579512 : ℝ) :=
    ⟨le_trans (by norm_num) hd1.1.1, le_trans hd1.1.2 (by norm_num)⟩
  have hc1 : (0.99904813643932 : ℝ) ≤ Real.cos (2 * (20 / 16 * (Real.pi / 180))) ∧ Real.cos (2 * (20 / 16 * (Real.pi / 180))) ≤ (0.99904823141553 : ℝ) :=
    ⟨le_trans (by norm_num) hd1.2.1, le_trans hd1.2.2 (by norm_num)⟩
  have hd2 := sin_cos_double hs1.1 hs1.2 hc1.1 hc1.2 (by norm_num) (by norm_num)
  have hs2 : (0.08715566802313 : ℝ) ≤ Real.sin (2 * (2 * (20 / 16 * (Real.pi / 180)))) ∧ Real.sin (2 * (2 * (20 / 16 * (Real.pi / 180)))) ≤ (0.08715580041099 : ℝ) :=
    ⟨le_trans (by norm_num) hd2.1.1, le_trans hd2.1.2 (by norm_num)⟩
  have hc2 : (0.99619435784575 : ℝ) ≤ Real.cos (2 * (2 * (20 / 16 * (Real.pi / 180)))) ∧ Real.cos (2 * (2 * (20 / 16 * (Real.pi / 180)))) ≤ (0.996194737389 : ℝ) :=
    ⟨le_trans (by norm_num) hd2.2.1, le_trans hd2.2.2 (by norm_num)⟩
  have hd3 := sin_cos_double hs2.1 hs2.2 hc2.1 hc2.2 (by norm_num) (by norm_num)
  have hs3 : (0.17364796947783 : ℝ) ≤ Real.sin (2 * (2 * (2 * (20 / 16 * (Real.pi / 180))))) ∧ Real.sin (2 * (2 * (2 * (20 / 16 * (Real.pi / 180))))) ≤ (0.17364829940471 : ℝ) :=
    ⟨le_trans (by norm_num) hd3.1.1, le_trans hd3.1.2 (by norm_num)⟩
  have hc3 : (0.98480639720741 : ℝ) ≤ Real.cos (2 * (2 * (2 * (20 / 16 * (Real.pi / 180))))) ∧ Real.cos (2 * (2 * (2 * (20 / 16 * (Real.pi / 180))))) ≤ (0.98480790960308 : ℝ) :=
    ⟨le_trans (by norm_num) hd3.2.1, le_trans hd3.2.2 (by norm_num)⟩
  have hd4 := sin_cos_double hs3.1 hs3.2 hc3.1 hc3.2 (by norm_num) (by norm_num)
  have hs4 : (0.34201926240768 : ℝ) ≤ Real.sin (2 * (2 * (2 * (2 * (20 / 16 * (Real.pi / 180)))))) ∧ Real.sin (2 * (2 * (2 * (2 * (20 / 16 * (Real.pi / 180)))))) ≤ (0.34202043748577 : ℝ) :=
    ⟨le_trans (by norm_num) hd4.1.1, le_trans hd4.1.2 (by norm_num)⟩
  have hc4 : (0.93968727996127 : ℝ) ≤ Real.cos (2 * (2 * (2 * (2 * (20 / 16 * (Real.pi / 180)))))) ∧ Real.cos (2 * (2 * (2 * (2 * (20 / 16 * (Real.pi / 180)))))) ≤ (0.93969323763358 : ℝ) :=
    ⟨le_trans (by norm_num) hd4.2.1, le_trans hd4.2.2 (by norm_num)⟩
  have hfin : 20 * (Real.pi / 180) = 2 * (2 * (2 * (2 * (20 / 16 * (Real.pi / 180))))) := by ring
  rw [hfin]
  exact ⟨hs4.1, hs4.2, hc4.1, hc4.2⟩

theorem trig_19_65 :
    (0.33627272739483 : ℝ) ≤ Real.sin (19.65 * (Real.pi / 180)) ∧ Real.sin (19.65 * (Real.pi / 180)) ≤ (0.33627381725098 : ℝ) ∧
    (0.94175937676744 : ℝ) ≤ Real.cos (19.65 * (Real.pi / 180)) ∧ Real.cos (19.65 * (Real.pi / 180)) ≤ (0.94176493342279 : ℝ) := by
  have hpi1 := Real.pi_gt_3141592
  have hpi2 := Real.pi_lt_3141593
  have hql : (0.0214348204166666 : ℝ) ≤ 19.65 / 16 * (Real.pi / 180) := by linarith
  have hqh : 19.65 / 16 * (Real.pi / 180) ≤ (0.0214348272395834 : ℝ) := by linarith
  have hts := sin_taylor (by norm_num) hql hqh (by norm_num)
  have htc := cos_taylor (by norm_num) hql hqh (by norm_num)
  have hs0 : (0.02143316804369 : ℝ) ≤ Real.sin (19.65 / 16 * (Real.pi / 180)) ∧ Real.sin (19.65 / 16 * (Real.pi / 180)) ≤ (0.02143319685734 : ℝ) :=
    ⟨le_trans (by norm_num) hts.1, le_trans hts.2 (by norm_num)⟩
  have hc0 : (0.99977026309602 : ℝ) ≤ Real.cos (19.65 / 16 * (Real.pi / 180)) ∧ Real.cos (19.65 / 16 * (Real.pi / 180)) ≤ (0.99977028523144 : ℝ) :=
    ⟨le_trans (by norm_num) htc.1, le_trans htc.2 (by norm_num)⟩
  have hd1 := sin_cos_double hs0.1 hs0.2 hc0.1 hc0.2 (by norm_num) (by norm_num)
  have hs1 : (0.04285648810804 : ℝ) ≤ Real.sin (2 * (19.65 / 16 * (Real.pi / 180))) ∧ Real.sin (2 * (19.65 / 16 * (Real.pi / 180))) ≤ (0.04285654667097 : ℝ) :=
    ⟨le_trans (by norm_num) hd1.1.1, le_trans hd1.1.2 (by norm_num)⟩
  have hc1 : (0.99908115794217 : ℝ) ≤ Real.cos (2 * (19.65 / 16 * (Real.pi / 180))) ∧ Real.cos (2 * (19.65 / 16 * (Real.pi / 180))) ≤ (0.99908124646351 : ℝ) :=
    ⟨le_trans (by norm_num) hd1.2.1, le_trans hd1.2.2 (by norm_num)⟩
  have hd2 := sin_cos_double hs1.1 hs1.2 hc1.1 hc1.2 (by norm_num) (by norm_num)
  have hs2 : (0.08563421952863 : ℝ) ≤ Real.sin (2 * (2 * (19.65 / 16 * (Real.pi / 180)))) ∧ Real.sin (2 * (2 * (19.65 / 16 * (Real.pi / 180)))) ≤ (0.08563434413431 : ℝ) :=
    ⟨le_trans (by norm_num) hd2.1.1, le_trans hd2.1.2 (by norm_num)⟩
  have hc2 : (0.99632632031013 : ℝ) ≤ Real.cos (2 * (2 * (19.65 / 16 * (Real.pi / 180)))) ∧ Real.cos (2 * (2 * (19.65 / 16 * (Real.pi / 180)))) ≤ (0.99632667407017 : ℝ) :=
    ⟨le_trans (by norm_num) hd2.2.1, le_trans hd2.2.2 (by norm_num)⟩
  have hd3 := sin_cos_double hs2.1 hs2.2 hc2.1 hc2.2 (by norm_num) (by norm_num)
  have hs3 : (0.17063925367117 : ℝ) ≤ Real.sin (2 * (2 * (2 * (19.65 / 16 * (Real.pi / 180))))) ∧ Real.sin (2 * (2 * (2 * (19.65 / 16 * (Real.pi / 180))))) ≤ (0.17063956255504 : ℝ) :=
    ⟨le_trans (by norm_num) hd3.1.1, le_trans hd3.1.2 (by norm_num)⟩
  have hc3 : (0.98533227308544 : ℝ) ≤ Real.cos (2 * (2 * (2 * (19.65 / 16 * (Real.pi / 180))))) ∧ Real.cos (2 * (2 * (2 * (19.65 / 16 * (Real.pi / 180))))) ≤ (0.98533368292746 : ℝ) :=
    ⟨le_trans (by norm_num) hd3.2.1, le_trans hd3.2.2 (by norm_num)⟩
  have hd4 := sin_cos_double hs3.1 hs3.2 hc3.1 hc3.2 (by norm_num) (by norm_num)
  have hs4 : (0.33627272739483 : ℝ) ≤ Real.sin (2 * (2 * (2 * (2 * (19.65 / 16 * (Real.pi / 180)))))) ∧ Real.sin (2 * (2 * (2 * (2 * (19.65 / 16 * (Real.pi / 180)))))) ≤ (0.33627381725098 : ℝ) :=
    ⟨le_trans (by norm_num) hd4.1.1, le_trans hd4.1.2 (by norm_num)⟩
  have hc4 : (0.94175937676744 : ℝ) ≤ Real.cos (2 * (2 * (2 * (2 * (19.65 / 16 * (Real.pi / 180)))))) ∧ Real.cos (2 * (2 * (2 * (2 * (19.65 / 16 * (Real.pi / 180)))))) ≤ (0.94176493342279 : ℝ) :=
    ⟨le_trans (by norm_num) hd4.2.1, le_trans hd4.2.2 (by norm_num)⟩
  have hfin : 19.65 * (Real.pi / 180) = 2 * (2 * (2 * (2 * (19.65 / 16 * (Real.pi / 180))))) := by ring
  rw [hfin]
  exact ⟨hs4.1, hs4.2, hc4.1, hc4.2⟩

theorem trig_19_75 :
    (0.33791588479759 : ℝ) ≤ Real.sin (19.75 * (Real.pi / 180)) ∧ Real.sin (19.75 * (Real.pi / 180)) ≤ (0.33791699845666 : ℝ) ∧
    (0.94117093361452 : ℝ) ≤ Real.cos (19.75 * (Real.pi / 180)) ∧ Real.cos (19.75 * (Real.pi / 180)) ≤ (0.94117660273324 : ℝ) := by
  have hpi1 := Real.pi_gt_3141592
  have hpi2 := Real.pi_lt_3141593
  have hql : (0.0215439034722222 : ℝ) ≤ 19.75 / 16 * (Real.pi / 180) := by linarith
  have hqh : 19.75 / 16 * (Real.pi / 180) ≤ (0.0215439103298612 : ℝ) := by linarith
  have hts := sin_taylor (by norm_num) hql hqh (by norm_num)
  have htc := cos_taylor (by norm_num) hql hqh (by norm_num)
  have hs0 : (0.02154222568676 : ℝ) ≤ Real.sin (19.75 / 16 * (Real.pi / 180)) ∧ Real.sin (19.75 / 16 * (Real.pi / 180)) ≤ (0.02154225498621 : ℝ) :=
    ⟨le_trans (by norm_num) hts.1, le_trans hts.2 (by norm_num)⟩
  have hc0 : (0.99976791874374 : ℝ) ≤ Real.cos (19.75 / 16 * (Real.pi / 180)) ∧ Real.cos (19.75 / 16 * (Real.pi / 180)) ≤ (0.9997679413317 : ℝ) :=
    ⟨le_trans (by norm_num) htc.1, le_trans htc.2 (by norm_num)⟩
  have hd1 := sin_cos_double hs0.1 hs0.2 hc0.1 hc0.2 (by norm_num) (by norm_num)
  have hs1 : (0.04307445227991 : ℝ) ≤ Real.sin (2 * (19.75 / 16 * (Real.pi / 180))) ∧ Real.sin (2 * (19.75 / 16 * (Real.pi / 180))) ≤ (0.04307451183842 : ℝ) :=
    ⟨le_trans (by norm_num) hd1.1.1, le_trans hd1.1.2 (by norm_num)⟩
  have hc1 : (0.99907178269837 : ℝ) ≤ Real.cos (2 * (19.75 / 16 * (Real.pi / 180))) ∧ Real.cos (2 * (19.75 / 16 * (Real.pi / 180))) ≤ (0.99907187302926 : ℝ) :=
    ⟨le_trans (by norm_num) hd1.2.1, le_trans hd1.2.2 (by norm_num)⟩
  have hd2 := sin_cos_double hs1.1 hs1.2 hc1.1 hc1.2 (by norm_num) (by norm_num)
  have hs2 : (0.08606893965609 : ℝ) ≤ Real.sin (2 * (2 * (19.75 / 16 * (Real.pi / 180)))) ∧ Real.sin (2 * (2 * (19.75 / 16 * (Real.pi / 180)))) ≤ (0.08606906644447 : ℝ) :=
    ⟨le_trans (by norm_num) hd2.1.1, le_trans hd2.1.2 (by norm_num)⟩
  have hc2 : (0.99628885396819 : ℝ) ≤ Real.cos (2 * (2 * (19.75 / 16 * (Real.pi / 180)))) ∧ Real.cos (2 * (2 * (19.75 / 16 * (Real.pi / 180)))) ≤ (0.99628921495639 : ℝ) :=
    ⟨le_trans (by norm_num) hd2.2.1, le_trans hd2.2.2 (by norm_num)⟩
  have hd3 := sin_cos_double hs2.1 hs2.2 hc2.1 hc2.2 (by norm_num) (by norm_num)
  have hs3 : (0.17149905050444 : ℝ) ≤ Real.sin (2 * (2 * (2 * (19.75 / 16 * (Real.pi / 180))))) ∧ Real.sin (2 * (2 * (2 * (19.75 / 16 * (Real.pi / 180))))) ≤ (0.17149936527999 : ℝ) :=
    ⟨le_trans (by norm_num) hd3.1.1, le_trans hd3.1.2 (by norm_num)⟩
  have hc3 : (0.98518296108249 : ℝ) ≤ Real.cos (2 * (2 * (2 * (19.75 / 16 * (Real.pi / 180))))) ∧ Real.cos (2 * (2 * (2 * (19.75 / 16 * (Real.pi / 180))))) ≤ (0.98518439967684 : ℝ) :=
    ⟨le_trans (by norm_num) hd3.2.1, le_trans hd3.2.2 (by norm_num)⟩
  have hd4 := sin_cos_double hs3.1 hs3.2 hc3.1 hc3.2 (by norm_num) (by norm_num)
  have hs4 : (0.33791588479759 : ℝ) ≤ Real.sin (2 * (2 * (2 * (2 * (19.75 / 16 * (Real.pi / 180)))))) ∧ Real.sin (2 * (2 * (2 * (2 * (19.75 / 16 * (Real.pi / 180)))))) ≤ (0.33791699845666 : ℝ) :=
    ⟨le_trans (by norm_num) hd4.1.1, le_trans hd4.1.2 (by norm_num)⟩
  have hc4 : (0.94117093361452 : ℝ) ≤ Real.cos (2 * (2 * (2 * (2 * (19.75 / 16 * (Real.pi / 180)))))) ∧ Real.cos (2 * (2 * (2 * (2 * (19.75 / 16 * (Real.pi / 180)))))) ≤ (0.94117660273324 : ℝ) :=
    ⟨le_trans (by norm_num) hd4.2.1, le_trans hd4.2.2 (by norm_num)⟩
  have hfin : 19.75 * (Real.pi / 180) = 2 * (2 * (2 * (2 * (19.75 / 16 * (Real.pi / 180))))) := by ring
  rw [hfin]
  exact ⟨hs4.1, hs4.2, hc4.1, hc4.2⟩

theorem trig_17_75 :
    (0.30486377521422 : ℝ) ≤ Real.sin (17.75 * (Real.pi / 180)) ∧ Real.sin (17.75 * (Real.pi / 180)) ≤ (0.30486448778977 : ℝ) ∧
    (0.95239246959626 : ℝ) ≤ Real.cos (17.75 * (Real.pi / 180)) ∧ Real.cos (17.75 * (Real.pi / 180)) ≤ (0.95239618816337 : ℝ) := by
  have hpi1 := Real.pi_gt_3141592
  have hpi2 := Real.pi_lt_3141593
  have hql : (0.0193622423611111 : ℝ) ≤ 17.75 / 16 * (Real.pi / 180) := by linarith
  have hqh : 17.75 / 16 * (Real.pi / 180) ≤ (0.0193622485243056 : ℝ) := by linarith
  have hts := sin_taylor (by norm_num) hql hqh (by norm_num)
  have htc := cos_taylor (by norm_num) hql hqh (by norm_num)
  have hs0 : (0.01936102523385 : ℝ) ≤ Real.sin (17.75 / 16 * (Real.pi / 180)) ∧ Real.sin (17.75 / 16 * (Real.pi / 180)) ≤ (0.01936104603857 : ℝ) :=
    ⟨le_trans (by norm_num) hts.1, le_trans hts.2 (by norm_num)⟩
  have hc0 : (0.99981254434585 : ℝ) ≤ Real.cos (17.75 / 16 * (Real.pi / 180)) ∧ Real.cos (17.75 / 16 * (Real.pi / 180)) ≤ (0.99981255910556 : ℝ) :=
    ⟨le_trans (by norm_num) htc.1, le_trans htc.2 (by norm_num)⟩
  have hd1 := sin_cos_double hs0.1 hs0.2 hc0.1 hc0.2 (by norm_num) (by norm_num)
  have hs1 : (0.03871479180039 : ℝ) ≤ Real.sin (2 * (17.75 / 16 * (Real.pi / 180))) ∧ Real.sin (2 * (17.75 / 16 * (Real.pi / 180))) ≤ (0.03871483397357 : ℝ) :=
    ⟨le_trans (by norm_num) hd1.1.1, le_trans hd1.1.2 (by norm_num)⟩
  have hc1 : (0.99925024766264 : ℝ) ≤ Real.cos (2 * (17.75 / 16 * (Real.pi / 180))) ∧ Real.cos (2 * (17.75 / 16 * (Real.pi / 180))) ≤ (0.99925030669042 : ℝ) :=
    ⟨le_trans (by norm_num) hd1.2.1, le_trans hd1.2.2 (by norm_num)⟩
  have hd2 := sin_cos_double hs1.1 hs1.2 hc1.1 hc1.2 (by norm_num) (by norm_num)
  have hs2 : (0.07737153058949 : ℝ) ≤ Real.sin (2 * (2 * (17.75 / 16 * (Real.pi / 180)))) ∧ Real.sin (2 * (2 * (17.75 / 16 * (Real.pi / 180)))) ≤ (0.07737161944312 : ℝ) :=
    ⟨le_trans (by norm_num) hd2.1.1, le_trans hd2.1.2 (by norm_num)⟩
  have hc2 : (0.99700211490769 : ℝ) ≤ Real.cos (2 * (2 * (17.75 / 16 * (Real.pi / 180)))) ∧ Real.cos (2 * (2 * (17.75 / 16 * (Real.pi / 180)))) ≤ (0.9970023508418 : ℝ) :=
    ⟨le_trans (by norm_num) hd2.2.1, le_trans hd2.2.2 (by norm_num)⟩
  have hd3 := sin_cos_double hs2.1 hs2.2 hc2.1 hc2.2 (by norm_num) (by norm_num)
  have hs3 : (0.15427915926273 : ℝ) ≤ Real.sin (2 * (2 * (2 * (17.75 / 16 * (Real.pi / 180))))) ∧ Real.sin (2 * (2 * (2 * (17.75 / 16 * (Real.pi / 180))))) ≤ (0.15427937294646 : ℝ) :=
    ⟨le_trans (by norm_num) hd3.1.1, le_trans hd3.1.2 (by norm_num)⟩
  have hc3 : (0.98802643426081 : ℝ) ≤ Real.cos (2 * (2 * (2 * (17.75 / 16 * (Real.pi / 180))))) ∧ Real.cos (2 * (2 * (2 * (17.75 / 16 * (Real.pi / 180))))) ≤ (0.98802737516816 : ℝ) :=
    ⟨le_trans (by norm_num) hd3.2.1, le_trans hd3.2.2 (by norm_num)⟩
  have hd4 := sin_cos_double hs3.1 hs3.2 hc3.1 hc3.2 (by norm_num) (by norm_num)
  have hs4 : (0.30486377521422 : ℝ) ≤ Real.sin (2 * (2 * (2 * (2 * (17.75 / 16 * (Real.pi / 180)))))) ∧ Real.sin (2 * (2 * (2 * (2 * (17.75 / 16 * (Real.pi / 180)))))) ≤ (0.30486448778977 : ℝ) :=
    ⟨le_trans (by norm_num) hd4.1.1, le_trans hd4.1.2 (by norm_num)⟩
  have hc4 : (0.95239246959626 : ℝ) ≤ Real.cos (2 * (2 * (2 * (2 * (17.75 / 16 * (Real.pi / 180)))))) ∧ Real.cos (2 * (2 * (2 * (2 * (17.75 / 16 * (Real.pi / 180)))))) ≤ (0.95239618816337 : ℝ) :=
    ⟨le_trans (by norm_num) hd4.2.1, le_trans hd4.2.2 (by norm_num)⟩
  have hfin : 17.75 * (Real.pi / 180) = 2 * (2 * (2 * (2 * (17.75 / 16 * (Real.pi / 180))))) := by ring
  rw [hfin]
  exact ⟨hs4.1, hs4.2, hc4.1, hc4.2⟩

theorem trig_17_85 :
    (0.30652554155906 : ℝ) ≤ Real.sin (17.85 * (Real.pi / 180)) ∧ Real.sin (17.85 * (Real.pi / 180)) ≤ (0.30652627074945 : ℝ) ∧
    (0.95185885576355 : ℝ) ≤ Real.cos (17.85 * (Real.pi / 180)) ∧ Real.cos (17.85 * (Real.pi / 180)) ≤ (0.95186265780786 : ℝ) := by
  have hpi1 := Real.pi_gt_3141592
  have hpi2 := Real.pi_lt_3141593
  have hql : (0.0194713254166666 : ℝ) ≤ 17.85 / 16 * (Real.pi / 180) := by linarith
  have hqh : 17.85 / 16 * (Real.pi / 180) ≤ (0.0194713316145834 : ℝ) := by linarith
  have hts := sin_taylor (by norm_num) hql hqh (by norm_num)
  have htc := cos_taylor (by norm_num) hql hqh (by norm_num)
  have hs0 : (0.01947008756018 : ℝ) ≤ Real.sin (17.85 / 16 * (Real.pi / 180)) ∧ Real.sin (17.85 / 16 * (Real.pi / 180)) ≤ (0.01947010873237 : ℝ) :=
    ⟨le_trans (by norm_num) hts.1, le_trans hts.2 (by norm_num)⟩
  have hc0 : (0.99981042613603 : ℝ) ≤ Real.cos (17.85 / 16 * (Real.pi / 180)) ∧ Real.cos (17.85 / 16 * (Real.pi / 180)) ≤ (0.99981044122981 : ℝ) :=
    ⟨le_trans (by norm_num) htc.1, le_trans htc.2 (by norm_num)⟩
  have hd1 := sin_cos_double hs0.1 hs0.2 hc0.1 hc0.2 (by norm_num) (by norm_num)
  have hs1 : (0.03893279308089 : ℝ) ≤ Real.sin (2 * (17.85 / 16 * (Real.pi / 180))) ∧ Real.sin (2 * (17.85 / 16 * (Real.pi / 180))) ≤ (0.03893283600501 : ℝ) :=
    ⟨le_trans (by norm_num) hd1.1.1, le_trans hd1.1.2 (by norm_num)⟩
  have hc1 : (0.99924177642061 : ℝ) ≤ Real.cos (2 * (17.85 / 16 * (Real.pi / 180))) ∧ Real.cos (2 * (17.85 / 16 * (Real.pi / 180))) ≤ (0.9992418367843 : ℝ) :=
    ⟨le_trans (by norm_num) hd1.2.1, le_trans hd1.2.2 (by norm_num)⟩
  have hd2 := sin_cos_double hs1.1 hs1.2 hc1.1 hc1.2 (by norm_num) (by norm_num)
  have hs2 : (0.07780654663832 : ℝ) ≤ Real.sin (2 * (2 * (17.85 / 16 * (Real.pi / 180)))) ∧ Real.sin (2 * (2 * (17.85 / 16 * (Real.pi / 180)))) ≤ (0.07780663712174 : ℝ) :=
    ⟨le_trans (by norm_num) hd2.1.1, le_trans hd2.1.2 (by norm_num)⟩
  have hc2 : (0.99696825548843 : ℝ) ≤ Real.cos (2 * (2 * (17.85 / 16 * (Real.pi / 180)))) ∧ Real.cos (2 * (2 * (17.85 / 16 * (Real.pi / 180)))) ≤ (0.99696849676013 : ℝ) :=
    ⟨le_trans (by norm_num) hd2.2.1, le_trans hd2.2.2 (by norm_num)⟩
  have hd3 := sin_cos_double hs2.1 hs2.2 hc2.1 hc2.2 (by norm_num) (by norm_num)
  have hs3 : (0.15514131413517 : ℝ) ≤ Real.sin (2 * (2 * (2 * (17.85 / 16 * (Real.pi / 180))))) ∧ Real.sin (2 * (2 * (2 * (17.85 / 16 * (Real.pi / 180))))) ≤ (0.15514153209845 : ℝ) :=
    ⟨le_trans (by norm_num) hd3.1.1, le_trans hd3.1.2 (by norm_num)⟩
  have hc3 : (0.98789140490328 : ℝ) ≤ Real.cos (2 * (2 * (2 * (17.85 / 16 * (Real.pi / 180))))) ∧ Real.cos (2 * (2 * (2 * (17.85 / 16 * (Real.pi / 180))))) ≤ (0.98789236706431 : ℝ) :=
    ⟨le_trans (by norm_num) hd3.2.1, le_trans hd3.2.2 (by norm_num)⟩
  have hd4 := sin_cos_double hs3.1 hs3.2 hc3.1 hc3.2 (by norm_num) (by norm_num)
  have hs4 : (0.30652554155906 : ℝ) ≤ Real.sin (2 * (2 * (2 * (2 * (17.85 / 16 * (Real.pi / 180)))))) ∧ Real.sin (2 * (2 * (2 * (2 * (17.85 / 16 * (Real.pi / 180)))))) ≤ (0.30652627074945 : ℝ) :=
    ⟨le_trans (by norm_num) hd4.1.1, le_trans hd4.1.2 (by norm_num)⟩
  have hc4 : (0.95185885576355 : ℝ) ≤ Real.cos (2 * (2 * (2 * (2 * (17.85 / 16 * (Real.pi / 180)))))) ∧ Real.cos (2 * (2 * (2 * (2 * (17.85 / 16 * (Real.pi / 180)))))) ≤ (0.95186265780786 : ℝ) :=
    ⟨le_trans (by norm_num) hd4.2.1, le_trans hd4.2.2 (by norm_num)⟩
  have hfin : 17.85 * (Real.pi / 180) = 2 * (2 * (2 * (2 * (17.85 / 16 * (Real.pi / 180))))) := by ring
  rw [hfin]
  exact ⟨hs4.1, hs4.2, hc4.1, hc4.2⟩

theorem trig_11_65 :
    (0.20193257910437 : ℝ) ≤ Real.sin (11.65 * (Real.pi / 180)) ∧ Real.sin (11.65 * (Real.pi / 180)) ≤ (0.20193273420867 : ℝ) ∧
    (0.97939877683988 : ℝ) ≤ Real.cos (11.65 * (Real.pi / 180)) ∧ Real.cos (11.65 * (Real.pi / 180)) ≤ (0.97939948065886 : ℝ) := by
  have hpi1 := Real.pi_gt_3141592
  have hpi2 := Real.pi_lt_3141593
  have hql : (0.0127081759722222 : ℝ) ≤ 11.65 / 16 * (Real.pi / 180) := by linarith
  have hqh : 11.65 / 16 * (Real.pi / 180) ≤ (0.0127081800173612 : ℝ) := by linarith
  have hts := sin_taylor (by norm_num) hql hqh (by norm_num)
  have htc := cos_taylor (by norm_num) hql hqh (by norm_num)
  have hs0 : (0.01270783255653 : ℝ) ≤ Real.sin (11.65 / 16 * (Real.pi / 180)) ∧ Real.sin (11.65 / 16 * (Real.pi / 180)) ≤ (0.01270783931884 : ℝ) :=
    ⟨le_trans (by norm_num) hts.1, le_trans hts.2 (by norm_num)⟩
  have hc0 : (0.9999192497219 : ℝ) ≤ Real.cos (11.65 / 16 * (Real.pi / 180)) ∧ Real.cos (11.65 / 16 * (Real.pi / 180)) ≤ (0.99991925249015 : ℝ) :=
    ⟨le_trans (by norm_num) htc.1, le_trans htc.2 (by norm_num)⟩
  have hd1 := sin_cos_double hs0.1 hs0.2 hc0.1 hc0.2 (by norm_num) (by norm_num)
  have hs1 : (0.02541361279103 : ℝ) ≤ Real.sin (2 * (11.65 / 16 * (Real.pi / 180))) ∧ Real.sin (2 * (11.65 / 16 * (Real.pi / 180))) ≤ (0.02541362638492 : ℝ) :=
    ⟨le_trans (by norm_num) hd1.1.1, le_trans hd1.1.2 (by norm_num)⟩
  have hc1 : (0.99967701192881 : ℝ) ≤ Real.cos (2 * (11.65 / 16 * (Real.pi / 180))) ∧ Real.cos (2 * (11.65 / 16 * (Real.pi / 180))) ≤ (0.99967702300093 : ℝ) :=
    ⟨le_trans (by norm_num) hd1.2.1, le_trans hd1.2.2 (by norm_num)⟩
  have hd2 := sin_cos_double hs1.1 hs1.2 hc1.1 hc1.2 (by norm_num) (by norm_num)
  have hs2 : (0.0508108089945 : ℝ) ≤ Real.sin (2 * (2 * (11.65 / 16 * (Real.pi / 180)))) ∧ Real.sin (2 * (2 * (11.65 / 16 * (Real.pi / 180)))) ≤ (0.05081083673627 : ℝ) :=
    ⟨le_trans (by norm_num) hd2.1.1, le_trans hd2.1.2 (by norm_num)⟩
  have hc2 : (0.99870825635782 : ℝ) ≤ Real.cos (2 * (2 * (11.65 / 16 * (Real.pi / 180)))) ∧ Real.cos (2 * (2 * (11.65 / 16 * (Real.pi / 180)))) ≤ (0.99870830063201 : ℝ) :=
    ⟨le_trans (by norm_num) hd2.2.1, le_trans hd2.2.2 (by norm_num)⟩
  have hd3 := sin_cos_double hs2.1 hs2.2 hc2.1 hc2.2 (by norm_num) (by norm_num)
  have hs3 : (0.10149034891005 : ℝ) ≤ Real.sin (2 * (2 * (2 * (11.65 / 16 * (Real.pi / 180))))) ∧ Real.sin (2 * (2 * (2 * (11.65 / 16 * (Real.pi / 180))))) ≤ (0.10149040882115 : ℝ) :=
    ⟨le_trans (by norm_num) hd3.1.1, le_trans hd3.1.2 (by norm_num)⟩
  have hc3 : (0.99483636263455 : ℝ) ≤ Real.cos (2 * (2 * (2 * (11.65 / 16 * (Real.pi / 180))))) ∧ Real.cos (2 * (2 * (2 * (11.65 / 16 * (Real.pi / 180))))) ≤ (0.99483653950256 : ℝ) :=
    ⟨le_trans (by norm_num) hd3.2.1, le_trans hd3.2.2 (by norm_num)⟩
  have hd4 := sin_cos_double hs3.1 hs3.2 hc3.1 hc3.2 (by norm_num) (by norm_num)
  have hs4 : (0.20193257910437 : ℝ) ≤ Real.sin (2 * (2 * (2 * (2 * (11.65 / 16 * (Real.pi / 180)))))) ∧ Real.sin (2 * (2 * (2 * (2 * (11.65 / 16 * (Real.pi / 180)))))) ≤ (0.20193273420867 : ℝ) :=
    ⟨le_trans (by norm_num) hd4.1.1, le_trans hd4.1.2 (by norm_num)⟩
  have hc4 : (0.97939877683988 : ℝ) ≤ Real.cos (2 * (2 * (2 * (2 * (11.65 / 16 * (Real.pi / 180)))))) ∧ Real.cos (2 * (2 * (2 * (2 * (11.65 / 16 * (Real.pi / 180)))))) ≤ (0.97939948065886 : ℝ) :=
    ⟨le_trans (by norm_num) hd4.2.1, le_trans hd4.2.2 (by norm_num)⟩
  have hfin : 11.65 * (Real.pi / 180) = 2 * (2 * (2 * (2 * (11.65 / 16 * (Real.pi / 180))))) := by ring
  rw [hfin]
  exact ⟨hs4.1, hs4.2, hc4.1, hc4.2⟩

theorem trig_11_75 :
    (0.20364164215515 : ℝ) ≤ Real.sin (11.75 * (Real.pi / 180)) ∧ Real.sin (11.75 * (Real.pi / 180)) ≤ (0.20364180136077 : ℝ) ∧
    (0.97904482466459 : ℝ) ≤ Real.cos (11.75 * (Real.pi / 180)) ∧ Real.cos (11.75 * (Real.pi / 180)) ≤ (0.9790455526443 : ℝ) := by
  have hpi1 := Real.pi_gt_3141592
  have hpi2 := Real.pi_lt_3141593
  have hql : (0.0128172590277777 : ℝ) ≤ 11.75 / 16 * (Real.pi / 180) := by linarith
  have hqh : 11.75 / 16 * (Real.pi / 180) ≤ (0.0128172631076389 : ℝ) := by linarith
  have hts := sin_taylor (by norm_num) hql hqh (by norm_num)
  have htc := cos_taylor (by norm_num) hql hqh (by norm_num)
  have hs0 : (0.01281690668068 : ℝ) ≤ Real.sin (11.75 / 16 * (Real.pi / 180)) ∧ Real.sin (11.75 / 16 * (Real.pi / 180)) ≤ (0.0128169135722 : ℝ) :=
    ⟨le_trans (by norm_num) hts.1, le_trans hts.2 (by norm_num)⟩
  have hc0 : (0.99991785747755 : ℝ) ≤ Real.cos (11.75 / 16 * (Real.pi / 180)) ∧ Real.cos (11.75 / 16 * (Real.pi / 180)) ≤ (0.99991786034117 : ℝ) :=
    ⟨le_trans (by norm_num) htc.1, le_trans htc.2 (by norm_num)⟩
  have hd1 := sin_cos_double hs0.1 hs0.2 hc0.1 hc0.2 (by norm_num) (by norm_num)
  have hs1 : (0.02563170773527 : ℝ) ≤ Real.sin (2 * (11.75 / 16 * (Real.pi / 180))) ∧ Real.sin (2 * (11.75 / 16 * (Real.pi / 180))) ≤ (0.02563172159059 : ℝ) :=
    ⟨le_trans (by norm_num) hd1.1.1, le_trans hd1.1.2 (by norm_num)⟩
  have hc1 : (0.99967144340498 : ℝ) ≤ Real.cos (2 * (11.75 / 16 * (Real.pi / 180))) ∧ Real.cos (2 * (11.75 / 16 * (Real.pi / 180))) ≤ (0.99967145485853 : ℝ) :=
    ⟨le_trans (by norm_num) hd1.2.1, le_trans hd1.2.2 (by norm_num)⟩
  have hd2 := sin_cos_double hs1.1 hs1.2 hc1.1 hc1.2 (by norm_num) (by norm_num)
  have hs2 : (0.0512465725373 : ℝ) ≤ Real.sin (2 * (2 * (11.75 / 16 * (Real.pi / 180)))) ∧ Real.sin (2 * (2 * (11.75 / 16 * (Real.pi / 180)))) ≤ (0.05124660082599 : ℝ) :=
    ⟨le_trans (by norm_num) hd2.1.1, le_trans hd2.1.2 (by norm_num)⟩
  have hc2 : (0.99868598951879 : ℝ) ≤ Real.cos (2 * (2 * (11.75 / 16 * (Real.pi / 180)))) ∧ Real.cos (2 * (2 * (11.75 / 16 * (Real.pi / 180)))) ≤ (0.99868603531794 : ℝ) :=
    ⟨le_trans (by norm_num) hd2.2.1, le_trans hd2.2.2 (by norm_num)⟩
  have hd3 := sin_cos_double hs2.1 hs2.2 hc2.1 hc2.2 (by norm_num) (by norm_num)
  have hs3 : (0.10235846800771 : ℝ) ≤ Real.sin (2 * (2 * (2 * (11.75 / 16 * (Real.pi / 180))))) ∧ Real.sin (2 * (2 * (2 * (11.75 / 16 * (Real.pi / 180))))) ≤ (0.10235852920486 : ℝ) :=
    ⟨le_trans (by norm_num) hd3.1.1, le_trans hd3.1.2 (by norm_num)⟩
  have hc3 : (0.99474741132224 : ℝ) ≤ Real.cos (2 * (2 * (2 * (11.75 / 16 * (Real.pi / 180))))) ∧ Real.cos (2 * (2 * (2 * (11.75 / 16 * (Real.pi / 180))))) ≤ (0.99474759427814 : ℝ) :=
    ⟨le_trans (by norm_num) hd3.2.1, le_trans hd3.2.2 (by norm_num)⟩
  have hd4 := sin_cos_double hs3.1 hs3.2 hc3.1 hc3.2 (by norm_num) (by norm_num)
  have hs4 : (0.20364164215515 : ℝ) ≤ Real.sin (2 * (2 * (2 * (2 * (11.75 / 16 * (Real.pi / 180)))))) ∧ Real.sin (2 * (2 * (2 * (2 * (11.75 / 16 * (Real.pi / 180)))))) ≤ (0.20364180136077 : ℝ) :=
    ⟨le_trans (by norm_num) hd4.1.1, le_trans hd4.1.2 (by norm_num)⟩
  have hc4 : (0.97904482466459 : ℝ) ≤ Real.cos (2 * (2 * (2 * (2 * (11.75 / 16 * (Real.pi / 180)))))) ∧ Real.cos (2 * (2 * (2 * (2 * (11.75 / 16 * (Real.pi / 180)))))) ≤ (0.9790455526443 : ℝ) :=
    ⟨le_trans (by norm_num) hd4.2.1, le_trans hd4.2.2 (by norm_num)⟩
  have hfin : 11.75 * (Real.pi / 180) = 2 * (2 * (2 * (2 * (11.75 / 16 * (Real.pi / 180))))) := by ring
  rw [hfin]
  exact ⟨hs4.1, hs4.2, hc4.1, hc4.2⟩

theorem trig_44_75 :
    (0.70397701421368 : ℝ) ≤ Real.sin (44.75 * (Real.pi / 180)) ∧ Real.sin (44.75 * (Real.pi / 180)) ≤ (0.70402276228541 : ℝ) ∧
    (0.7100624377747 : ℝ) ≤ Real.cos (44.75 * (Real.pi / 180)) ∧ Real.cos (44.75 * (Real.pi / 180)) ≤ (0.71019914829247 : ℝ) := by
  have hpi1 := Real.pi_gt_3141592
  have hpi2 := Real.pi_lt_3141593
  have hql : (0.0488146673611111 : ℝ) ≤ 44.75 / 16 * (Real.pi / 180) := by linarith
  have hqh : 44.75 / 16 * (Real.pi / 180) ≤ (0.0488146828993056 : ℝ) := by linarith
  have hts := sin_taylor (by norm_num) hql hqh (by norm_num)
  have htc := cos_taylor (by norm_num) hql hqh (by norm_num)
  have hs0 : (0.0487949850937 : ℝ) ≤ Real.sin (44.75 / 16 * (Real.pi / 180)) ∧ Real.sin (44.75 / 16 * (Real.pi / 180)) ≤ (0.0487955921176 : ℝ) :=
    ⟨le_trans (by norm_num) hts.1, le_trans hts.2 (by norm_num)⟩
  have hc0 : (0.99880826763312 : ℝ) ≤ Real.cos (44.75 / 16 * (Real.pi / 180)) ∧ Real.cos (44.75 / 16 * (Real.pi / 180)) ≤ (0.99880885985881 : ℝ) :=
    ⟨le_trans (by norm_num) htc.1, le_trans htc.2 (by norm_num)⟩
  have hd1 := sin_cos_double hs0.1 hs0.2 hc0.1 hc0.2 (by norm_num) (by norm_num)
  have hs1 : (0.09747366906124 : ℝ) ≤ Real.sin (2 * (44.75 / 16 * (Real.pi / 180))) ∧ Real.sin (2 * (44.75 / 16 * (Real.pi / 180))) ≤ (0.09747493945824 : ℝ) :=
    ⟨le_trans (by norm_num) hd1.1.1, le_trans hd1.1.2 (by norm_num)⟩
  have hc1 : (0.99523591098454 : ℝ) ≤ Real.cos (2 * (44.75 / 16 * (Real.pi / 180))) ∧ Real.cos (2 * (44.75 / 16 * (Real.pi / 180))) ≤ (0.99523827706492 : ℝ) :=
    ⟨le_trans (by norm_num) hd1.2.1, le_trans hd1.2.2 (by norm_num)⟩
  have hd2 := sin_cos_double hs1.1 hs1.2 hc1.1 hc1.2 (by norm_num) (by norm_num)
  have hs2 : (0.19401859165033 : ℝ) ≤ Real.sin (2 * (2 * (44.75 / 16 * (Real.pi / 180)))) ∧ Real.sin (2 * (2 * (44.75 / 16 * (Real.pi / 180)))) ≤ (0.19402158160686 : ℝ) :=
    ⟨le_trans (by norm_num) hd2.1.1, le_trans hd2.1.2 (by norm_num)⟩
  have hc2 : (0.98098903702645 : ℝ) ≤ Real.cos (2 * (2 * (44.75 / 16 * (Real.pi / 180)))) ∧ Real.cos (2 * (2 * (44.75 / 16 * (Real.pi / 180)))) ≤ (0.98099845627031 : ℝ) :=
    ⟨le_trans (by norm_num) hd2.2.1, le_trans hd2.2.2 (by norm_num)⟩
  have hd3 := sin_cos_double hs2.1 hs2.2 hc2.1 hc2.2 (by norm_num) (by norm_num)
  have hs3 : (0.38066022277657 : ℝ) ≤ Real.sin (2 * (2 * (2 * (44.75 / 16 * (Real.pi / 180))))) ∧ Real.sin (2 * (2 * (2 * (44.75 / 16 * (Real.pi / 180))))) ≤ (0.38066974407891 : ℝ) :=
    ⟨le_trans (by norm_num) hd3.1.1, le_trans hd3.1.2 (by norm_num)⟩
  have hc3 : (0.92467898153216 : ℝ) ≤ Real.cos (2 * (2 * (2 * (44.75 / 16 * (Real.pi / 180))))) ∧ Real.cos (2 * (2 * (2 * (44.75 / 16 * (Real.pi / 180))))) ≤ (0.92471594240947 : ℝ) :=
    ⟨le_trans (by norm_num) hd3.2.1, le_trans hd3.2.2 (by norm_num)⟩
  have hd4 := sin_cos_double hs3.1 hs3.2 hc3.1 hc3.2 (by norm_num) (by norm_num)
  have hs4 : (0.70397701421368 : ℝ) ≤ Real.sin (2 * (2 * (2 * (2 * (44.75 / 16 * (Real.pi / 180)))))) ∧ Real.sin (2 * (2 * (2 * (2 * (44.75 / 16 * (Real.pi / 180)))))) ≤ (0.70402276228541 : ℝ) :=
    ⟨le_trans (by norm_num) hd4.1.1, le_trans hd4.1.2 (by norm_num)⟩
  have hc4 : (0.7100624377747 : ℝ) ≤ Real.cos (2 * (2 * (2 * (2 * (44.75 / 16 * (Real.pi / 180)))))) ∧ Real.cos (2 * (2 * (2 * (2 * (44.75 / 16 * (Real.pi / 180)))))) ≤ (0.71019914829247 : ℝ) :=
    ⟨le_trans (by norm_num) hd4.2.1, le_trans hd4.2.2 (by norm_num)⟩
  have hfin : 44.75 * (Real.pi / 180) = 2 * (2 * (2 * (2 * (44.75 / 16 * (Real.pi / 180))))) := by ring
  rw [hfin]
  exact ⟨hs4.1, hs4.2, hc4.1, hc4.2⟩

theorem trig_44_85 :
    (0.70521504779151 : ℝ) ≤ Real.sin (44.85 * (Real.pi / 180)) ∧ Real.sin (44.85 * (Real.pi / 180)) ≤ (0.70526127335533 : ℝ) ∧
    (0.70883157561096 : ℝ) ≤ Real.cos (44.85 * (Real.pi / 180)) ∧ Real.cos (44.85 * (Real.pi / 180)) ≤ (0.70896944620903 : ℝ) := by
  have hpi1 := Real.pi_gt_3141592
  have hpi2 := Real.pi_lt_3141593
  have hql : (0.0489237504166666 : ℝ) ≤ 44.85 / 16 * (Real.pi / 180) := by linarith
  have hqh : 44.85 / 16 * (Real.pi / 180) ≤ (0.0489237659895834 : ℝ) := by linarith
  have hts := sin_taylor (by norm_num) hql hqh (by norm_num)
  have htc := cos_taylor (by norm_num) hql hqh (by norm_num)
  have hs0 : (0.04890393524072 : ℝ) ≤ Real.sin (44.85 / 16 * (Real.pi / 180)) ∧ Real.sin (44.85 / 16 * (Real.pi / 180)) ≤ (0.04890454760407 : ℝ) :=
    ⟨le_trans (by norm_num) hts.1, le_trans hts.2 (by norm_num)⟩
  have hc0 : (0.9988029341748 : ℝ) ≤ Real.cos (44.85 / 16 * (Real.pi / 180)) ∧ Real.cos (44.85 / 16 * (Real.pi / 180)) ≤ (0.99880353170849 : ℝ) :=
    ⟨le_trans (by norm_num) htc.1, le_trans htc.2 (by norm_num)⟩
  have hd1 := sin_cos_double hs0.1 hs0.2 hc0.1 hc0.2 (by norm_num) (by norm_num)
  have hs1 : (0.09769078802225 : ℝ) ≤ Real.sin (2 * (44.85 / 16 * (Real.pi / 180))) ∧ Real.sin (2 * (44.85 / 16 * (Real.pi / 180))) ≤ (0.09769206972711 : ℝ) :=
    ⟨le_trans (by norm_num) hd1.1.1, le_trans hd1.1.2 (by norm_num)⟩
  have hc1 : (0.99521460263237 : ℝ) ≤ Real.cos (2 * (44.85 / 16 * (Real.pi / 180))) ∧ Real.cos (2 * (44.85 / 16 * (Real.pi / 180))) ≤ (0.99521698990671 : ℝ) :=
    ⟨le_trans (by norm_num) hd1.2.1, le_trans hd1.2.2 (by norm_num)⟩
  have hd2 := sin_cos_double hs1.1 hs1.2 hc1.1 hc1.2 (by norm_num) (by norm_num)
  have hs2 : (0.19444659756481 : ℝ) ≤ Real.sin (2 * (2 * (44.85 / 16 * (Real.pi / 180)))) ∧ Real.sin (2 * (2 * (44.85 / 16 * (Real.pi / 180)))) ≤ (0.19444961514315 : ℝ) :=
    ⟨le_trans (by norm_num) hd2.1.1, le_trans hd2.1.2 (by norm_num)⟩
  have hc2 : (0.98090421058541 : ℝ) ≤ Real.cos (2 * (2 * (44.85 / 16 * (Real.pi / 180)))) ∧ Real.cos (2 * (2 * (44.85 / 16 * (Real.pi / 180)))) ≤ (0.98091371399795 : ℝ) :=
    ⟨le_trans (by norm_num) hd2.2.1, le_trans hd2.2.2 (by norm_num)⟩
  have hd3 := sin_cos_double hs2.1 hs2.2 hc2.1 hc2.2 (by norm_num) (by norm_num)
  have hs3 : (0.38146697257065 : ℝ) ≤ Real.sin (2 * (2 * (2 * (44.85 / 16 * (Real.pi / 180))))) ∧ Real.sin (2 * (2 * (2 * (44.85 / 16 * (Real.pi / 180))))) ≤ (0.38147658835108 : ℝ) :=
    ⟨le_trans (by norm_num) hd3.1.1, le_trans hd3.1.2 (by norm_num)⟩
  have hc3 : (0.92434614068837 : ℝ) ≤ Real.cos (2 * (2 * (2 * (44.85 / 16 * (Real.pi / 180))))) ∧ Real.cos (2 * (2 * (2 * (44.85 / 16 * (Real.pi / 180))))) ≤ (0.92438342861851 : ℝ) :=
    ⟨le_trans (by norm_num) hd3.2.1, le_trans hd3.2.2 (by norm_num)⟩
  have hd4 := sin_cos_double hs3.1 hs3.2 hc3.1 hc3.2 (by norm_num) (by norm_num)
  have hs4 : (0.70521504779151 : ℝ) ≤ Real.sin (2 * (2 * (2 * (2 * (44.85 / 16 * (Real.pi / 180)))))) ∧ Real.sin (2 * (2 * (2 * (2 * (44.85 / 16 * (Real.pi / 180)))))) ≤ (0.70526127335533 : ℝ) :=
    ⟨le_trans (by norm_num) hd4.1.1, le_trans hd4.1.2 (by norm_num)⟩
  have hc4 : (0.70883157561096 : ℝ) ≤ Real.cos (2 * (2 * (2 * (2 * (44.85 / 16 * (Real.pi / 180)))))) ∧ Real.cos (2 * (2 * (2 * (2 * (44.85 / 16 * (Real.pi / 180)))))) ≤ (0.70896944620903 : ℝ) :=
    ⟨le_trans (by norm_num) hd4.2.1, le_trans hd4.2.2 (by norm_num)⟩
  have hfin : 44.85 * (Real.pi / 180) = 2 * (2 * (2 * (2 * (44.85 / 16 * (Real.pi / 180))))) := by ring
  rw [hfin]
  exact ⟨hs4.1, hs4.2, hc4.1, hc4.2⟩

set_option maxHeartbeats 2000000 in
theorem center_bounds :
    ((-43.7594026213 : ℝ) ≤ xO (fromCompass 140 192) (fromCompass 112 283) (fromCompass 120 20) ∧ xO (fromCompass 140 192) (fromCompass 112 283) (fromCompass 120 20) ≤ (-43.7584025816 : ℝ)) ∧
    ((-122.4124839838 : ℝ) ≤ yO (fromCompass 140 192) (fromCompass 112 283) (fromCompass 120 20) ∧ yO (fromCompass 140 192) (fromCompass 112 283) (fromCompass 120 20) ≤ (-122.4117771627 : ℝ)) := by
  obtain ⟨hs12l, hs12h, hc12l, hc12h⟩ := trig_12
  obtain ⟨hs13l, hs13h, hc13l, hc13h⟩ := trig_13
  obtain ⟨hs20l, hs20h, hc20l, hc20h⟩ := trig_20
  obtain ⟨hg1, hg2, hg3⟩ := g_evals
  have e1x : (fromCompass 140 192).1 = -(140 * Real.sin (12 * (Real.pi / 180))) := by rw [hg1]
  have e1y : (fromCompass 140 192).2 = -(140 * Real.cos (12 * (Real.pi / 180))) := by rw [hg1]
  have e2x : (fromCompass 112 283).1 = -(112 * Real.cos (13 * (Real.pi / 180))) := by rw [hg2]
  have e2y : (fromCompass 112 283).2 = 112 * Real.sin (13 * (Real.pi / 180)) := by rw [hg2]
  have e3x : (fromCompass 120 20).1 = 120 * Real.sin (20 * (Real.pi / 180)) := by rw [hg3]
  have e3y : (fromCompass 120 20).2 = 120 * Real.cos (20 * (Real.pi / 180)) := by rw [hg3]
  have ep1x : (vsub (fromCompass 140 192) (fromCompass 112 283)).1 = (fromCompass 140 192).1 - (fromCompass 112 283).1 := rfl
  have ep1y : (vsub (fromCompass 140 192) (fromCompass 112 283)).2 = (fromCompass 140 192).2 - (fromCompass 112 283).2 := rfl
  have bp1x : (80.021694686 : ℝ) ≤ (vsub (fromCompass 140 192) (fromCompass 112 283)).1 ∧ (vsub (fromCompass 140 192) (fromCompass 112 283)).1 ≤ (80.0218400473 : ℝ) := by
    rw [ep1x, e1x, e2x]
    exact ⟨by linarith, by linarith⟩
  have bp1y : (-162.1352018472 : ℝ) ≤ (vsub (fromCompass 140 192) (fromCompass 112 283)).2 ∧ (vsub (fromCompass 140 192) (fromCompass 112 283)).2 ≤ (-162.1350663966 : ℝ) := by
    rw [ep1y, e1y, e2y]
    exact ⟨by linarith, by linarith⟩
  have ep2x : (vsub (fromCompass 140 192) (fromCompass 120 20)).1 = (fromCompass 140 192).1 - (fromCompass 120 20).1 := rfl
  have ep2y : (vsub (fromCompass 140 192) (fromCompass 120 20)).2 = (fromCompass 140 192).2 - (fromCompass 120 20).2 := rfl
  have bp2x : (-70.1500966638 : ℝ) ≤ (vsub (fromCompass 140 192) (fromCompass 120 20)).1 ∧ (vsub (fromCompass 140 192) (fromCompass 120 20)).1 ≤ (-70.1499318624 : ℝ) := by
    rw [ep2x, e1x, e3x]
    exact ⟨by linarith, by linarith⟩
  have bp2y : (-249.7038647691 : ℝ) ≤ (vsub (fromCompass 140 192) (fromCompass 120 20)).2 ∧ (vsub (fromCompass 140 192) (fromCompass 120 20)).2 ≤ (-249.7030390931 : ℝ) := by
    rw [ep2y, e1y, e3y]
    exact ⟨by linarith, by linarith⟩
  have bmq1 : (0.4935491723 : ℝ) ≤ mq (vsub (fromCompass 140 192) (fromCompass 112 283)) ∧ mq (vsub (fromCompass 140 192) (fromCompass 112 283)) ≤ (0.4935504813 : ℝ) := by
    have e : mq (vsub (fromCompass 140 192) (fromCompass 112 283)) = -(vsub (fromCompass 140 192) (fromCompass 112 283)).1 / (vsub (fromCompass 140 192) (fromCompass 112 283)).2 := rfl
    rw [e]
    exact div_bounds_neg (by linarith [bp1y.2]) (by linarith) (by linarith)
  have bmq2 : (-0.2809340925 : ℝ) ≤ mq (vsub (fromCompass 140 192) (fromCompass 120 20)) ∧ mq (vsub (fromCompass 140 192) (fromCompass 120 20)) ≤ (-0.2809325034 : ℝ) := by
    have e : mq (vsub (fromCompass 140 192) (fromCompass 120 20)) = -(vsub (fromCompass 140 192) (fromCompass 120 20)).1 / (vsub (fromCompass 140 192) (fromCompass 120 20)).2 := rfl
    rw [e]
    exact div_bounds_neg (by linarith [bp2y.2]) (by linarith) (by linarith)
  have bt1 : (39.4946411783 : ℝ) ≤ mq (vsub (fromCompass 140 192) (fromCompass 112 283)) * (vsub (fromCompass 140 192) (fromCompass 112 283)).1 ∧ mq (vsub (fromCompass 140 192) (fromCompass 112 283)) * (vsub (fromCompass 140 192) (fromCompass 112 283)).1 ≤ (39.4948176699 : ℝ) :=
    ⟨corners_le_mul bmq1.1 bmq1.2 bp1x.1 bp1x.2 (by norm_num) (by norm_num) (by norm_num) (by norm_num),
     mul_le_corners bmq1.1 bmq1.2 bp1x.1 bp1x.2 (by norm_num) (by norm_num) (by norm_num) (by norm_num)⟩
  have bbq1 : (-100.8150097586 : ℝ) ≤ bq (vsub (fromCompass 140 192) (fromCompass 112 283)) ∧ bq (vsub (fromCompass 140 192) (fromCompass 112 283)) ≤ (-100.8148537874 : ℝ) := by
    have e : bq (vsub (fromCompass 140 192) (fromCompass 112 283)) = ((vsub (fromCompass 140 192) (fromCompass 112 283)).2 - mq (vsub (fromCompass 140 192) (fromCompass 112 283)) * (vsub (fromCompass 140 192) (fromCompass 112 283)).1) / 2 := rfl
    rw [e]
    exact ⟨by linarith [bp1y.1, bt1.2], by linarith [bp1y.2, bt1.1]⟩
  have bt2 : (19.7073959714 : ℝ) ≤ mq (vsub (fromCompass 140 192) (fromCompass 120 20)) * (vsub (fromCompass 140 192) (fromCompass 120 20)).1 ∧ mq (vsub (fromCompass 140 192) (fromCompass 120 20)) * (vsub (fromCompass 140 192) (fromCompass 120 20)).1 ≤ (19.7075537451 : ℝ) :=
    ⟨corners_le_mul bmq2.1 bmq2.2 bp2x.1 bp2x.2 (by norm_num) (by norm_num) (by norm_num) (by norm_num),
     mul_le_corners bmq2.1 bmq2.2 bp2x.1 bp2x.2 (by norm_num) (by norm_num) (by norm_num) (by norm_num)⟩
  have bbq2 : (-134.7057092571 : ℝ) ≤ bq (vsub (fromCompass 140 192) (fromCompass 120 20)) ∧ bq (vsub (fromCompass 140 192) (fromCompass 120 20)) ≤ (-134.7052175322 : ℝ) := by
    have e : bq (vsub (fromCompass 140 192) (fromCompass 120 20)) = ((vsub (fromCompass 140 192) (fromCompass 120 20)).2 - mq (vsub (fromCompass 140 192) (fromCompass 120 20)) * (vsub (fromCompass 140 192) (fromCompass 120 20)).1) / 2 := rfl
    rw [e]
    exact ⟨by linarith [bp2y.1, bt2.2], by linarith [bp2y.2, bt2.1]⟩
  have bden : (0.7744816757 : ℝ) ≤ mq (vsub (fromCompass 140 192) (fromCompass 112 283)) - mq (vsub (fromCompass 140 192) (fromCompass 120 20)) ∧ mq (vsub (fromCompass 140 192) (fromCompass 112 283)) - mq (vsub (fromCompass 140 192) (fromCompass 120 20)) ≤ (0.7744845738 : ℝ) :=
    ⟨by linarith [bmq1.1, bmq2.2], by linarith [bmq1.2, bmq2.1]⟩
  have bnum : (-33.8908554697 : ℝ) ≤ bq (vsub (fromCompass 140 192) (fromCompass 120 20)) - bq (vsub (fromCompass 140 192) (fromCompass 112 283)) ∧ bq (vsub (fromCompass 140 192) (fromCompass 120 20)) - bq (vsub (fromCompass 140 192) (fromCompass 112 283)) ≤ (-33.8902077736 : ℝ) :=
    ⟨by linarith [bbq2.1, bbq1.2], by linarith [bbq2.2, bbq1.1]⟩
  have bxO : (-43.7594026213 : ℝ) ≤ xO (fromCompass 140 192) (fromCompass 112 283) (fromCompass 120 20) ∧ xO (fromCompass 140 192) (fromCompass 112 283) (fromCompass 120 20) ≤ (-43.7584025816 : ℝ) := by
    have e : xO (fromCompass 140 192) (fromCompass 112 283) (fromCompass 120 20) = (bq (vsub (fromCompass 140 192) (fromCompass 120 20)) - bq (vsub (fromCompass 140 192) (fromCompass 112 283))) / (mq (vsub (fromCompass 140 192) (fromCompass 112 283)) - mq (vsub (fromCompass 140 192) (fromCompass 120 20))) := rfl
    rw [e]
    exact div_bounds_pos (by linarith [bden.1]) (by linarith [bnum.1, bden.1, bden.2]) (by linarith [bnum.2, bden.1, bden.2])
  have bt3 : (-21.5974742252 : ℝ) ≤ mq (vsub (fromCompass 140 192) (fromCompass 112 283)) * (xO (fromCompass 140 192) (fromCompass 112 283) (fromCompass 120 20)) ∧ mq (vsub (fromCompass 140 192) (fromCompass 112 283)) * (xO (fromCompass 140 192) (fromCompass 112 283) (fromCompass 120 20)) ≤ (-21.5969233753 : ℝ) :=
    ⟨corners_le_mul bmq1.1 bmq1.2 bxO.1 bxO.2 (by norm_num) (by norm_num) (by norm_num) (by norm_num),
     mul_le_corners bmq1.1 bmq1.2 bxO.1 bxO.2 (by norm_num) (by norm_num) (by norm_num) (by norm_num)⟩
  have byO : (-122.4124839838 : ℝ) ≤ yO (fromCompass 140 192) (fromCompass 112 283) (fromCompass 120 20) ∧ yO (fromCompass 140 192) (fromCompass 112 283) (fromCompass 120 20) ≤ (-122.4117771627 : ℝ) := by
    have e : yO (fromCompass 140 192) (fromCompass 112 283) (fromCompass 120 20) = mq (vsub (fromCompass 140 192) (fromCompass 112 283)) * (xO (fromCompass 140 192) (fromCompass 112 283) (fromCompass 120 20)) + bq (vsub (fromCompass 140 192) (fromCompass 112 283)) := rfl
    rw [e]
    exact ⟨by linarith [bt3.1, bbq1.1], by linarith [bt3.2, bbq1.2]⟩
  exact ⟨bxO, byO⟩

set_option maxHeartbeats 2000000 in
theorem wind_air_bounds :
    ((14.6507584161 : ℝ) ≤ (wind (fromCompass 140 192) (fromCompass 112 283) (fromCompass 120 20)).1 ∧ (wind (fromCompass 140 192) (fromCompass 112 283) (fromCompass 120 20)).1 ≤ (14.6517822478 : ℝ)) ∧
    ((-14.5288990903 : ℝ) ≤ (wind (fromCompass 140 192) (fromCompass 112 283) (fromCompass 120 20)).2 ∧ (wind (fromCompass 140 192) (fromCompass 112 283) (fromCompass 120 20)).2 ≤ (-14.528081514 : ℝ)) ∧
    ((-123.7812426686 : ℝ) ≤ (a2 (fromCompass 140 192) (fromCompass 112 283) (fromCompass 120 20)).1 ∧ (a2 (fromCompass 140 192) (fromCompass 112 283) (fromCompass 120 20)).1 ≤ (-123.7800972676 : ℝ)) ∧
    ((39.7225824128 : ℝ) ≤ (a2 (fromCompass 140 192) (fromCompass 112 283) (fromCompass 120 20)).2 ∧ (a2 (fromCompass 140 192) (fromCompass 112 283) (fromCompass 120 20)).2 ≤ (39.7234246845 : ℝ)) ∧
    ((26.3905292411 : ℝ) ≤ (a3 (fromCompass 140 192) (fromCompass 112 283) (fromCompass 120 20)).1 ∧ (a3 (fromCompass 140 192) (fromCompass 112 283) (fromCompass 120 20)).1 ≤ (26.3916940822 : ℝ)) ∧
    ((127.2905551093 : ℝ) ≤ (a3 (fromCompass 140 192) (fromCompass 112 283) (fromCompass 120 20)).2 ∧ (a3 (fromCompass 140 192) (fromCompass 112 283) (fromCompass 120 20)).2 ≤ (127.2920876064 : ℝ)) := by
  obtain ⟨hs12l, hs12h, hc12l, hc12h⟩ := trig_12
  obtain ⟨hs13l, hs13h, hc13l, hc13h⟩ := trig_13
  obtain ⟨hs20l, hs20h, hc20l, hc20h⟩ := trig_20
  obtain ⟨hg1, hg2, hg3⟩ := g_evals
  obtain ⟨bxO, byO⟩ := center_bounds
  have e1x : (fromCompass 140 192).1 = -(140 * Real.sin (12 * (Real.pi / 180))) := by rw [hg1]
  have e1y : (fromCompass 140 192).2 = -(140 * Real.cos (12 * (Real.pi / 180))) := by rw [hg1]
  have e2x : (fromCompass 112 283).1 = -(112 * Real.cos (13 * (Real.pi / 180))) := by rw [hg2]
  have e2y : (fromCompass 112 283).2 = 112 * Real.sin (13 * (Real.pi / 180)) := by rw [hg2]
  have e3x : (fromCompass 120 20).1 = 120 * Real.sin (20 * (Real.pi / 180)) := by rw [hg3]
  have e3y : (fromCompass 120 20).2 = 120 * Real.cos (20 * (Real.pi / 180)) := by rw [hg3]
  have ewx : (wind (fromCompass 140 192) (fromCompass 112 283) (fromCompass 120 20)).1 = (fromCompass 140 192).1 - xO (fromCompass 140 192) (fromCompass 112 283) (fromCompass 120 20) := rfl
  have ewy : (wind (fromCompass 140 192) (fromCompass 112 283) (fromCompass 120 20)).2 = (fromCompass 140 192).2 - yO (fromCompass 140 192) (fromCompass 112 283) (fromCompass 120 20) := rfl
  have bwx : (14.6507584161 : ℝ) ≤ (wind (fromCompass 140 192) (fromCompass 112 283) (fromCompass 120 20)).1 ∧ (wind (fromCompass 140 192) (fromCompass 112 283) (fromCompass 120 20)).1 ≤ (14.6517822478 : ℝ) := by
    rw [ewx, e1x]
    exact ⟨by linarith [bxO.2], by linarith [bxO.1]⟩
  have bwy : (-14.5288990903 : ℝ) ≤ (wind (fromCompass 140 192) (fromCompass 112 283) (fromCompass 120 20)).2 ∧ (wind (fromCompass 140 192) (fromCompass 112 283) (fromCompass 120 20)).2 ≤ (-14.528081514 : ℝ) := by
    rw [ewy, e1y]
    exact ⟨by linarith [byO.2], by linarith [byO.1]⟩
  have ea2x : (a2 (fromCompass 140 192) (fromCompass 112 283) (fromCompass 120 20)).1 = (fromCompass 112 283).1 - (wind (fromCompass 140 192) (fromCompass 112 283) (fromCompass 120 20)).1 := rfl
  have ea2y : (a2 (fromCompass 140 192) (fromCompass 112 283) (fromCompass 120 20)).2 = (fromCompass 112 283).2 - (wind (fromCompass 140 192) (fromCompass 112 283) (fromCompass 120 20)).2 := rfl
  have ba2x : (-123.7812426686 : ℝ) ≤ (a2 (fromCompass 140 192) (fromCompass 112 283) (fromCompass 120 20)).1 ∧ (a2 (fromCompass 140 192) (fromCompass 112 283) (fromCompass 120 20)).1 ≤ (-123.7800972676 : ℝ) := by
    rw [ea2x, e2x]
    exact ⟨by linarith [bwx.2], by linarith [bwx.1]⟩
  have ba2y : (39.7225824128 : ℝ) ≤ (a2 (fromCompass 140 192) (fromCompass 112 283) (fromCompass 120 20)).2 ∧ (a2 (fromCompass 140 192) (fromCompass 112 283) (fromCompass 120 20)).2 ≤ (39.7234246845 : ℝ) := by
    rw [ea2y, e2y]
    exact ⟨by linarith [bwy.2], by linarith [bwy.1]⟩
  have ea3x : (a3 (fromCompass 140 192) (fromCompass 112 283) (fromCompass 120 20)).1 = (fromCompass 120 20).1 - (wind (fromCompass 140 192) (fromCompass 112 283) (fromCompass 120 20)).1 := rfl
  have ea3y : (a3 (fromCompass 140 192) (fromCompass 112 283) (fromCompass 120 20)).2 = (fromCompass 120 20).2 - (wind (fromCompass 140 192) (fromCompass 112 283) (fromCompass 120 20)).2 := rfl
  have ba3x : (26.3905292411 : ℝ) ≤ (a3 (fromCompass 140 192) (fromCompass 112 283) (fromCompass 120 20)).1 ∧ (a3 (fromCompass 140 192) (fromCompass 112 283) (fromCompass 120 20)).1 ≤ (26.3916940822 : ℝ) := by
    rw [ea3x, e3x]
    exact ⟨by linarith [bwx.2], by linarith [bwx.1]⟩
  have ba3y : (127.2905551093 : ℝ) ≤ (a3 (fromCompass 140 192) (fromCompass 112 283) (fromCompass 120 20)).2 ∧ (a3 (fromCompass 140 192) (fromCompass 112 283) (fromCompass 120 20)).2 ≤ (127.2920876064 : ℝ) := by
    rw [ea3y, e3y]
    exact ⟨by linarith [bwy.2], by linarith [bwy.1]⟩
  exact ⟨bwx, bwy, ba2x, ba2y, ba3x, ba3y⟩


set_option maxHeartbeats 2000000 in
theorem mag_bounds :
    ((129.99784992 : ℝ) ≤ Real.sqrt ((xO (fromCompass 140 192) (fromCompass 112 283) (fromCompass 120 20)) ^ 2 + (yO (fromCompass 140 192) (fromCompass 112 283) (fromCompass 120 20)) ^ 2) ∧ Real.sqrt ((xO (fromCompass 140 192) (fromCompass 112 283) (fromCompass 120 20)) ^ 2 + (yO (fromCompass 140 192) (fromCompass 112 283) (fromCompass 120 20)) ^ 2) ≤ (129.99885213 : ℝ)) ∧
    ((129.99767702 : ℝ) ≤ Real.sqrt ((a2 (fromCompass 140 192) (fromCompass 112 283) (fromCompass 120 20)).1 ^ 2 + (a2 (fromCompass 140 192) (fromCompass 112 283) (fromCompass 120 20)).2 ^ 2) ∧ Real.sqrt ((a2 (fromCompass 140 192) (fromCompass 112 283) (fromCompass 120 20)).1 ^ 2 + (a2 (fromCompass 140 192) (fromCompass 112 283) (fromCompass 120 20)).2 ^ 2) ≤ (129.99902502 : ℝ)) ∧
    ((129.99748248 : ℝ) ≤ Real.sqrt ((a3 (fromCompass 140 192) (fromCompass 112 283) (fromCompass 120 20)).1 ^ 2 + (a3 (fromCompass 140 192) (fromCompass 112 283) (fromCompass 120 20)).2 ^ 2) ∧ Real.sqrt ((a3 (fromCompass 140 192) (fromCompass 112 283) (fromCompass 120 20)).1 ^ 2 + (a3 (fromCompass 140 192) (fromCompass 112 283) (fromCompass 120 20)).2 ^ 2) ≤ (129.99921956 : ℝ)) ∧
    ((20.63273793 : ℝ) ≤ Real.sqrt ((wind (fromCompass 140 192) (fromCompass 112 283) (fromCompass 120 20)).1 ^ 2 + (wind (fromCompass 140 192) (fromCompass 112 283) (fromCompass 120 20)).2 ^ 2) ∧ Real.sqrt ((wind (fromCompass 140 192) (fromCompass 112 283) (fromCompass 120 20)).1 ^ 2 + (wind (fromCompass 140 192) (fromCompass 112 283) (fromCompass 120 20)).2 ^ 2) ≤ (20.63404061 : ℝ)) := by
  obtain ⟨bxO, byO⟩ := center_bounds
  obtain ⟨bwx, bwy, ba2x, ba2y, ba3x, ba3y⟩ := wind_air_bounds
  have bx21 : (1914.7977964933 : ℝ) ≤ (xO (fromCompass 140 192) (fromCompass 112 283) (fromCompass 120 20)) * (xO (fromCompass 140 192) (fromCompass 112 283) (fromCompass 120 20)) ∧ (xO (fromCompass 140 192) (fromCompass 112 283) (fromCompass 120 20)) * (xO (fromCompass 140 192) (fromCompass 112 283) (fromCompass 120 20)) ≤ (1914.8853177731 : ℝ) :=
    ⟨corners_le_mul bxO.1 bxO.2 bxO.1 bxO.2 (by norm_num) (by norm_num) (by norm_num) (by norm_num),
     mul_le_corners bxO.1 bxO.2 bxO.1 bxO.2 (by norm_num) (by norm_num) (by norm_num) (by norm_num)⟩
  have by21 : (14984.6431881305 : ℝ) ≤ (yO (fromCompass 140 192) (fromCompass 112 283) (fromCompass 120 20)) * (yO (fromCompass 140 192) (fromCompass 112 283) (fromCompass 120 20)) ∧ (yO (fromCompass 140 192) (fromCompass 112 283) (fromCompass 120 20)) * (yO (fromCompass 140 192) (fromCompass 112 283) (fromCompass 120 20)) ≤ (14984.8162350841 : ℝ) :=
    ⟨corners_le_mul byO.1 byO.2 byO.1 byO.2 (by norm_num) (by norm_num) (by norm_num) (by norm_num),
     mul_le_corners byO.1 byO.2 byO.1 byO.2 (by norm_num) (by norm_num) (by norm_num) (by norm_num)⟩
  have bS1 : (16899.4409846238 : ℝ) ≤ (xO (fromCompass 140 192) (fromCompass 112 283) (fromCompass 120 20)) ^ 2 + (yO (fromCompass 140 192) (fromCompass 112 283) (fromCompass 120 20)) ^ 2 ∧ (xO (fromCompass 140 192) (fromCompass 112 283) (fromCompass 120 20)) ^ 2 + (yO (fromCompass 140 192) (fromCompass 112 283) (fromCompass 120 20)) ^ 2 ≤ (16899.7015528572 : ℝ) := by
    rw [pow_two, pow_two]
    exact ⟨by linarith [bx21.1, by21.1], by linarith [bx21.2, by21.2]⟩
  have bM1 : (129.99784992 : ℝ) ≤ Real.sqrt ((xO (fromCompass 140 192) (fromCompass 112 283) (fromCompass 120 20)) ^ 2 + (yO (fromCompass 140 192) (fromCompass 112 283) (fromCompass 120 20)) ^ 2) ∧ Real.sqrt ((xO (fromCompass 140 192) (fromCompass 112 283) (fromCompass 120 20)) ^ 2 + (yO (fromCompass 140 192) (fromCompass 112 283) (fromCompass 120 20)) ^ 2) ≤ (129.99885213 : ℝ) := by
    constructor
    · have h := Real.sqrt_le_sqrt (show ((129.99784992 : ℝ)) ^ 2 ≤ (xO (fromCompass 140 192) (fromCompass 112 283) (fromCompass 120 20)) ^ 2 + (yO (fromCompass 140 192) (fromCompass 112 283) (fromCompass 120 20)) ^ 2 by nlinarith [bS1.1])
      rwa [Real.sqrt_sq (by norm_num)] at h
    · have h := Real.sqrt_le_sqrt (show (xO (fromCompass 140 192) (fromCompass 112 283) (fromCompass 120 20)) ^ 2 + (yO (fromCompass 140 192) (fromCompass 112 283) (fromCompass 120 20)) ^ 2 ≤ ((129.99885213 : ℝ)) ^ 2 by nlinarith [bS1.2])
      rwa [Real.sqrt_sq (by norm_num)] at h
  have bx22 : (15321.5124795765 : ℝ) ≤ (a2 (fromCompass 140 192) (fromCompass 112 283) (fromCompass 120 20)).1 * (a2 (fromCompass 140 192) (fromCompass 112 283) (fromCompass 120 20)).1 ∧ (a2 (fromCompass 140 192) (fromCompass 112 283) (fromCompass 120 20)).1 * (a2 (fromCompass 140 192) (fromCompass 112 283) (fromCompass 120 20)).1 ≤ (15321.7960365829 : ℝ) :=
    ⟨corners_le_mul ba2x.1 ba2x.2 ba2x.1 ba2x.2 (by norm_num) (by norm_num) (by norm_num) (by norm_num),
     mul_le_corners ba2x.1 ba2x.2 ba2x.1 ba2x.2 (by norm_num) (by norm_num) (by norm_num) (by norm_num)⟩
  have by22 : (1577.8835535416 : ℝ) ≤ (a2 (fromCompass 140 192) (fromCompass 112 283) (fromCompass 120 20)).2 * (a2 (fromCompass 140 192) (fromCompass 112 283) (fromCompass 120 20)).2 ∧ (a2 (fromCompass 140 192) (fromCompass 112 283) (fromCompass 120 20)).2 * (a2 (fromCompass 140 192) (fromCompass 112 283) (fromCompass 120 20)).2 ≤ (1577.9504686652 : ℝ) :=
    ⟨corners_le_mul ba2y.1 ba2y.2 ba2y.1 ba2y.2 (by norm_num) (by norm_num) (by norm_num) (by norm_num),
     mul_le_corners ba2y.1 ba2y.2 ba2y.1 ba2y.2 (by norm_num) (by norm_num) (by norm_num) (by norm_num)⟩
  have bS2 : (16899.3960331181 : ℝ) ≤ (a2 (fromCompass 140 192) (fromCompass 112 283) (fromCompass 120 20)).1 ^ 2 + (a2 (fromCompass 140 192) (fromCompass 112 283) (fromCompass 120 20)).2 ^ 2 ∧ (a2 (fromCompass 140 192) (fromCompass 112 283) (fromCompass 120 20)).1 ^ 2 + (a2 (fromCompass 140 192) (fromCompass 112 283) (fromCompass 120 20)).2 ^ 2 ≤ (16899.7465052481 : ℝ) := by
    rw [pow_two, pow_two]
    exact ⟨by linarith [bx22.1, by22.1], by linarith [bx22.2, by22.2]⟩
  have bM2 : (129.99767702 : ℝ) ≤ Real.sqrt ((a2 (fromCompass 140 192) (fromCompass 112 283) (fromCompass 120 20)).1 ^ 2 + (a2 (fromCompass 140 192) (fromCompass 112 283) (fromCompass 120 20)).2 ^ 2) ∧ Real.sqrt ((a2 (fromCompass 140 192) (fromCompass 112 283) (fromCompass 120 20)).1 ^ 2 + (a2 (fromCompass 140 192) (fromCompass 112 283) (fromCompass 120 20)).2 ^ 2) ≤ (129.99902502 : ℝ) := by
    constructor
    · have h := Real.sqrt_le_sqrt (show ((129.99767702 : ℝ)) ^ 2 ≤ (a2 (fromCompass 140 192) (fromCompass 112 283) (fromCompass 120 20)).1 ^ 2 + (a2 (fromCompass 140 192) (fromCompass 112 283) (fromCompass 120 20)).2 ^ 2 by nlinarith [bS2.1])
      rwa [Real.sqrt_sq (by norm_num)] at h
    · have h := Real.sqrt_le_sqrt (show (a2 (fromCompass 140 192) (fromCompass 112 283) (fromCompass 120 20)).1 ^ 2 + (a2 (fromCompass 140 192) (fromCompass 112 283) (fromCompass 120 20)).2 ^ 2 ≤ ((129.99902502 : ℝ)) ^ 2 by nlinarith [bS2.2])
      rwa [Real.sqrt_sq (by norm_num)] at h
  have bx23 : (696.4600336253 : ℝ) ≤ (a3 (fromCompass 140 192) (fromCompass 112 283) (fromCompass 120 20)).1 * (a3 (fromCompass 140 192) (fromCompass 112 283) (fromCompass 120 20)).1 ∧ (a3 (fromCompass 140 192) (fromCompass 112 283) (fromCompass 120 20)).1 * (a3 (fromCompass 140 192) (fromCompass 112 283) (fromCompass 120 20)).1 ≤ (696.5215165285 : ℝ) :=
    ⟨corners_le_mul ba3x.1 ba3x.2 ba3x.1 ba3x.2 (by norm_num) (by norm_num) (by norm_num) (by norm_num),
     mul_le_corners ba3x.1 ba3x.2 ba3x.1 ba3x.2 (by norm_num) (by norm_num) (by norm_num) (by norm_num)⟩
  have by23 : (16202.8854200337 : ℝ) ≤ (a3 (fromCompass 140 192) (fromCompass 112 283) (fromCompass 120 20)).2 * (a3 (fromCompass 140 192) (fromCompass 112 283) (fromCompass 120 20)).2 ∧ (a3 (fromCompass 140 192) (fromCompass 112 283) (fromCompass 120 20)).2 * (a3 (fromCompass 140 192) (fromCompass 112 283) (fromCompass 120 20)).2 ≤ (16203.2755671955 : ℝ) :=
    ⟨corners_le_mul ba3y.1 ba3y.2 ba3y.1 ba3y.2 (by norm_num) (by norm_num) (by norm_num) (by norm_num),
     mul_le_corners ba3y.1 ba3y.2 ba3y.1 ba3y.2 (by norm_num) (by norm_num) (by norm_num) (by norm_num)⟩
  have bS3 : (16899.345453659 : ℝ) ≤ (a3 (fromCompass 140 192) (fromCompass 112 283) (fromCompass 120 20)).1 ^ 2 + (a3 (fromCompass 140 192) (fromCompass 112 283) (fromCompass 120 20)).2 ^ 2 ∧ (a3 (fromCompass 140 192) (fromCompass 112 283) (fromCompass 120 20)).1 ^ 2 + (a3 (fromCompass 140 192) (fromCompass 112 283) (fromCompass 120 20)).2 ^ 2 ≤ (16899.797083724 : ℝ) := by
    rw [pow_two, pow_two]
    exact ⟨by linarith [bx23.1, by23.1], by linarith [bx23.2, by23.2]⟩
  have bM3 : (129.99748248 : ℝ) ≤ Real.sqrt ((a3 (fromCompass 140 192) (fromCompass 112 283) (fromCompass 120 20)).1 ^ 2 + (a3 (fromCompass 140 192) (fromCompass 112 283) (fromCompass 120 20)).2 ^ 2) ∧ Real.sqrt ((a3 (fromCompass 140 192) (fromCompass 112 283) (fromCompass 120 20)).1 ^ 2 + (a3 (fromCompass 140 192) (fromCompass 112 283) (fromCompass 120 20)).2 ^ 2) ≤ (129.99921956 : ℝ) := by
    constructor
    · have h := Real.sqrt_le_sqrt (show ((129.99748248 : ℝ)) ^ 2 ≤ (a3 (fromCompass 140 192) (fromCompass 112 283) (fromCompass 120 20)).1 ^ 2 + (a3 (fromCompass 140 192) (fromCompass 112 283) (fromCompass 120 20)).2 ^ 2 by nlinarith [bS3.1])
      rwa [Real.sqrt_sq (by norm_num)] at h
    · have h := Real.sqrt_le_sqrt (show (a3 (fromCompass 140 192) (fromCompass 112 283) (fromCompass 120 20)).1 ^ 2 + (a3 (fromCompass 140 192) (fromCompass 112 283) (fromCompass 120 20)).2 ^ 2 ≤ ((129.99921956 : ℝ)) ^ 2 by nlinarith [bS3.2])
      rwa [Real.sqrt_sq (by norm_num)] at h
  have bx2w : (214.6447221669 : ℝ) ≤ (wind (fromCompass 140 192) (fromCompass 112 283) (fromCompass 120 20)).1 * (wind (fromCompass 140 192) (fromCompass 112 283) (fromCompass 120 20)).1 ∧ (wind (fromCompass 140 192) (fromCompass 112 283) (fromCompass 120 20)).1 * (wind (fromCompass 140 192) (fromCompass 112 283) (fromCompass 120 20)).1 ≤ (214.674723037 : ℝ) :=
    ⟨corners_le_mul bwx.1 bwx.2 bwx.1 bwx.2 (by norm_num) (by norm_num) (by norm_num) (by norm_num),
     mul_le_corners bwx.1 bwx.2 bwx.1 bwx.2 (by norm_num) (by norm_num) (by norm_num) (by norm_num)⟩
  have by2w : (211.0651524774 : ℝ) ≤ (wind (fromCompass 140 192) (fromCompass 112 283) (fromCompass 120 20)).2 * (wind (fromCompass 140 192) (fromCompass 112 283) (fromCompass 120 20)).2 ∧ (wind (fromCompass 140 192) (fromCompass 112 283) (fromCompass 120 20)).2 * (wind (fromCompass 140 192) (fromCompass 112 283) (fromCompass 120 20)).2 ≤ (211.0889087762 : ℝ) :=
    ⟨corners_le_mul bwy.1 bwy.2 bwy.1 bwy.2 (by norm_num) (by norm_num) (by norm_num) (by norm_num),
     mul_le_corners bwy.1 bwy.2 bwy.1 bwy.2 (by norm_num) (by norm_num) (by norm_num) (by norm_num)⟩
  have bSw : (425.7098746443 : ℝ) ≤ (wind (fromCompass 140 192) (fromCompass 112 283) (fromCompass 120 20)).1 ^ 2 + (wind (fromCompass 140 192) (fromCompass 112 283) (fromCompass 120 20)).2 ^ 2 ∧ (wind (fromCompass 140 192) (fromCompass 112 283) (fromCompass 120 20)).1 ^ 2 + (wind (fromCompass 140 192) (fromCompass 112 283) (fromCompass 120 20)).2 ^ 2 ≤ (425.7636318132 : ℝ) := by
    rw [pow_two, pow_two]
    exact ⟨by linarith [bx2w.1, by2w.1], by linarith [bx2w.2, by2w.2]⟩
  have bMw : (20.63273793 : ℝ) ≤ Real.sqrt ((wind (fromCompass 140 192) (fromCompass 112 283) (fromCompass 120 20)).1 ^ 2 + (wind (fromCompass 140 192) (fromCompass 112 283) (fromCompass 120 20)).2 ^ 2) ∧ Real.sqrt ((wind (fromCompass 140 192) (fromCompass 112 283) (fromCompass 120 20)).1 ^ 2 + (wind (fromCompass 140 192) (fromCompass 112 283) (fromCompass 120 20)).2 ^ 2) ≤ (20.63404061 : ℝ) := by
    constructor
    · have h := Real.sqrt_le_sqrt (show ((20.63273793 : ℝ)) ^ 2 ≤ (wind (fromCompass 140 192) (fromCompass 112 283) (fromCompass 120 20)).1 ^ 2 + (wind (fromCompass 140 192) (fromCompass 112 283) (fromCompass 120 20)).2 ^ 2 by nlinarith [bSw.1])
      rwa [Real.sqrt_sq (by norm_num)] at h
    · have h := Real.sqrt_le_sqrt (show (wind (fromCompass 140 192) (fromCompass 112 283) (fromCompass 120 20)).1 ^ 2 + (wind (fromCompass 140 192) (fromCompass 112 283) (fromCompass 120 20)).2 ^ 2 ≤ ((20.63404061 : ℝ)) ^ 2 by nlinarith [bSw.2])
      rwa [Real.sqrt_sq (by norm_num)] at h
  exact ⟨bM1, bM2, bM3, bMw⟩

theorem tas_bound : (129.5 : ℝ) < tas (fromCompass 140 192) (fromCompass 112 283) (fromCompass 120 20) ∧ tas (fromCompass 140 192) (fromCompass 112 283) (fromCompass 120 20) < 130.5 := by
  obtain ⟨bM1, bM2, bM3, bMw⟩ := mag_bounds
  have e : tas (fromCompass 140 192) (fromCompass 112 283) (fromCompass 120 20) = Real.sqrt ((xO (fromCompass 140 192) (fromCompass 112 283) (fromCompass 120 20)) ^ 2 + (yO (fromCompass 140 192) (fromCompass 112 283) (fromCompass 120 20)) ^ 2) := rfl
  rw [e]
  exact ⟨by linarith [bM1.1], by linarith [bM1.2]⟩

theorem windspeed_bound :
    (20.55 : ℝ) < (toCompass (vneg (wind (fromCompass 140 192) (fromCompass 112 283) (fromCompass 120 20)))).1 ∧ (toCompass (vneg (wind (fromCompass 140 192) (fromCompass 112 283) (fromCompass 120 20)))).1 < 20.65 := by
  obtain ⟨bM1, bM2, bM3, bMw⟩ := mag_bounds
  have e : (toCompass (vneg (wind (fromCompass 140 192) (fromCompass 112 283) (fromCompass 120 20)))).1 = Real.sqrt ((-(wind (fromCompass 140 192) (fromCompass 112 283) (fromCompass 120 20)).1) ^ 2 + (-(wind (fromCompass 140 192) (fromCompass 112 283) (fromCompass 120 20)).2) ^ 2) := rfl
  have e2 : (-(wind (fromCompass 140 192) (fromCompass 112 283) (fromCompass 120 20)).1) ^ 2 + (-(wind (fromCompass 140 192) (fromCompass 112 283) (fromCompass 120 20)).2) ^ 2 = (wind (fromCompass 140 192) (fromCompass 112 283) (fromCompass 120 20)).1 ^ 2 + (wind (fromCompass 140 192) (fromCompass 112 283) (fromCompass 120 20)).2 ^ 2 := by ring
  rw [e, e2]
  exact ⟨by linarith [bMw.1], by linarith [bMw.2]⟩


set_option maxHeartbeats 1000000 in
theorem heading1_bound :
    (199.65 : ℝ) < (toCompass (a1 (fromCompass 140 192) (fromCompass 112 283) (fromCompass 120 20))).2 ∧ (toCompass (a1 (fromCompass 140 192) (fromCompass 112 283) (fromCompass 120 20))).2 < 199.75 := by
  obtain ⟨bxO, byO⟩ := center_bounds
  obtain ⟨bM1, bM2, bM3, bMw⟩ := mag_bounds
  obtain ⟨hs1965l, hs1965h, hc1965l, hc1965h⟩ := trig_19_65
  obtain ⟨hs1975l, hs1975h, hc1975l, hc1975h⟩ := trig_19_75
  have etc2 : (toCompass (a1 (fromCompass 140 192) (fromCompass 112 283) (fromCompass 120 20))).2 = fmod (90 - degrees (arctan2 (yO (fromCompass 140 192) (fromCompass 112 283) (fromCompass 120 20)) (xO (fromCompass 140 192) (fromCompass 112 283) (fromCompass 120 20)))) 360 := rfl
  have harg : arctan2 (yO (fromCompass 140 192) (fromCompass 112 283) (fromCompass 120 20)) (xO (fromCompass 140 192) (fromCompass 112 283) (fromCompass 120 20)) = Real.arcsin (-(yO (fromCompass 140 192) (fromCompass 112 283) (fromCompass 120 20)) / Real.sqrt ((xO (fromCompass 140 192) (fromCompass 112 283) (fromCompass 120 20)) ^ 2 + (yO (fromCompass 140 192) (fromCompass 112 283) (fromCompass 120 20)) ^ 2)) - Real.pi :=
    arctan2_third_quadrant (by linarith [bxO.2]) (by linarith [byO.2])
  have bu : (0.941637369538 : ℝ) ≤ -(yO (fromCompass 140 192) (fromCompass 112 283) (fromCompass 120 20)) / Real.sqrt ((xO (fromCompass 140 192) (fromCompass 112 283) (fromCompass 120 20)) ^ 2 + (yO (fromCompass 140 192) (fromCompass 112 283) (fromCompass 120 20)) ^ 2) ∧ -(yO (fromCompass 140 192) (fromCompass 112 283) (fromCompass 120 20)) / Real.sqrt ((xO (fromCompass 140 192) (fromCompass 112 283) (fromCompass 120 20)) ^ 2 + (yO (fromCompass 140 192) (fromCompass 112 283) (fromCompass 120 20)) ^ 2) ≤ (0.941650066206 : ℝ) :=
    div_bounds_pos (by linarith [bM1.1]) (by linarith [bM1.1, bM1.2, byO.1, byO.2]) (by linarith [bM1.1, bM1.2, byO.1, byO.2])
  have hsl : Real.sin ((70.25 : ℝ) * (Real.pi / 180)) = Real.cos (19.75 * (Real.pi / 180)) := by
    rw [show (70.25 : ℝ) * (Real.pi / 180) = Real.pi / 2 - 19.75 * (Real.pi / 180) by ring, Real.sin_pi_div_two_sub]
  have hsh : Real.sin ((70.35 : ℝ) * (Real.pi / 180)) = Real.cos (19.65 * (Real.pi / 180)) := by
    rw [show (70.35 : ℝ) * (Real.pi / 180) = Real.pi / 2 - 19.65 * (Real.pi / 180) by ring, Real.sin_pi_div_two_sub]
  have harc := arcsin_window (-(yO (fromCompass 140 192) (fromCompass 112 283) (fromCompass 120 20)) / Real.sqrt ((xO (fromCompass 140 192) (fromCompass 112 283) (fromCompass 120 20)) ^ 2 + (yO (fromCompass 140 192) (fromCompass 112 283) (fromCompass 120 20)) ^ 2)) 70.25 70.35 (0.94117660273324 : ℝ) (0.94175937676744 : ℝ)
    (by norm_num) (by norm_num) (by norm_num)
    (by rw [hsl]; exact hc1975h) (by rw [hsh]; exact hc1965l)
    (by linarith [bu.1]) (by linarith [bu.2])
  have hdeg := degrees_window harc.1 harc.2
  rw [etc2, harg, degrees_sub_pi]
  have hin1 : (0 : ℝ) ≤ 90 - (degrees (Real.arcsin (-(yO (fromCompass 140 192) (fromCompass 112 283) (fromCompass 120 20)) / Real.sqrt ((xO (fromCompass 140 192) (fromCompass 112 283) (fromCompass 120 20)) ^ 2 + (yO (fromCompass 140 192) (fromCompass 112 283) (fromCompass 120 20)) ^ 2))) - 180) := by linarith [hdeg.2]
  have hin2 : 90 - (degrees (Real.arcsin (-(yO (fromCompass 140 192) (fromCompass 112 283) (fromCompass 120 20)) / Real.sqrt ((xO (fromCompass 140 192) (fromCompass 112 283) (fromCompass 120 20)) ^ 2 + (yO (fromCompass 140 192) (fromCompass 112 283) (fromCompass 120 20)) ^ 2))) - 180) < 360 := by linarith [hdeg.1]
  rw [fmod_eq_self hin1 hin2]
  exact ⟨by linarith [hdeg.2], by linarith [hdeg.1]⟩

set_option maxHeartbeats 1000000 in
theorem heading2_bound :
    (287.75 : ℝ) < (toCompass (a2 (fromCompass 140 192) (fromCompass 112 283) (fromCompass 120 20))).2 ∧ (toCompass (a2 (fromCompass 140 192) (fromCompass 112 283) (fromCompass 120 20))).2 < 287.85 := by
  obtain ⟨bwx, bwy, ba2x, ba2y, ba3x, ba3y⟩ := wind_air_bounds
  obtain ⟨bM1, bM2, bM3, bMw⟩ := mag_bounds
  obtain ⟨hs1775l, hs1775h, hc1775l, hc1775h⟩ := trig_17_75
  obtain ⟨hs1785l, hs1785h, hc1785l, hc1785h⟩ := trig_17_85
  have etc2 : (toCompass (a2 (fromCompass 140 192) (fromCompass 112 283) (fromCompass 120 20))).2 = fmod (90 - degrees (arctan2 ((a2 (fromCompass 140 192) (fromCompass 112 283) (fromCompass 120 20)).2) ((a2 (fromCompass 140 192) (fromCompass 112 283) (fromCompass 120 20)).1))) 360 := rfl
  have harg : arctan2 ((a2 (fromCompass 140 192) (fromCompass 112 283) (fromCompass 120 20)).2) ((a2 (fromCompass 140 192) (fromCompass 112 283) (fromCompass 120 20)).1) = Real.arcsin (-(a2 (fromCompass 140 192) (fromCompass 112 283) (fromCompass 120 20)).2 / Real.sqrt ((a2 (fromCompass 140 192) (fromCompass 112 283) (fromCompass 120 20)).1 ^ 2 + (a2 (fromCompass 140 192) (fromCompass 112 283) (fromCompass 120 20)).2 ^ 2)) + Real.pi :=
    arctan2_second_quadrant (by linarith [ba2x.2]) (by linarith [ba2y.1])
  have bu : (-0.305570265524 : ℝ) ≤ -(a2 (fromCompass 140 192) (fromCompass 112 283) (fromCompass 120 20)).2 / Real.sqrt ((a2 (fromCompass 140 192) (fromCompass 112 283) (fromCompass 120 20)).1 ^ 2 + (a2 (fromCompass 140 192) (fromCompass 112 283) (fromCompass 120 20)).2 ^ 2) ∧ -(a2 (fromCompass 140 192) (fromCompass 112 283) (fromCompass 120 20)).2 / Real.sqrt ((a2 (fromCompass 140 192) (fromCompass 112 283) (fromCompass 120 20)).1 ^ 2 + (a2 (fromCompass 140 192) (fromCompass 112 283) (fromCompass 120 20)).2 ^ 2) ≤ (-0.305560617909 : ℝ) :=
    div_bounds_pos (by linarith [bM2.1]) (by linarith [bM2.1, bM2.2, ba2y.1, ba2y.2]) (by linarith [bM2.1, bM2.2, ba2y.1, ba2y.2])
  have hsl : Real.sin ((-17.85 : ℝ) * (Real.pi / 180)) = -Real.sin (17.85 * (Real.pi / 180)) := by
    rw [show (-17.85 : ℝ) * (Real.pi / 180) = -(17.85 * (Real.pi / 180)) by ring, Real.sin_neg]
  have hsh : Real.sin ((-17.75 : ℝ) * (Real.pi / 180)) = -Real.sin (17.75 * (Real.pi / 180)) := by
    rw [show (-17.75 : ℝ) * (Real.pi / 180) = -(17.75 * (Real.pi / 180)) by ring, Real.sin_neg]
  have harc := arcsin_window (-(a2 (fromCompass 140 192) (fromCompass 112 283) (fromCompass 120 20)).2 / Real.sqrt ((a2 (fromCompass 140 192) (fromCompass 112 283) (fromCompass 120 20)).1 ^ 2 + (a2 (fromCompass 140 192) (fromCompass 112 283) (fromCompass 120 20)).2 ^ 2)) (-17.85) (-17.75) (-0.30652554155906 : ℝ) (-0.30486448778977 : ℝ)
    (by norm_num) (by norm_num) (by norm_num)
    (by rw [hsl]; linarith [hs1785l]) (by rw [hsh]; linarith [hs1775h])
    (by linarith [bu.1]) (by linarith [bu.2])
  have hdeg := degrees_window harc.1 harc.2
  rw [etc2, harg, degrees_add_pi]
  have hin1 : -(360 : ℝ) ≤ 90 - (degrees (Real.arcsin (-(a2 (fromCompass 140 192) (fromCompass 112 283) (fromCompass 120 20)).2 / Real.sqrt ((a2 (fromCompass 140 192) (fromCompass 112 283) (fromCompass 120 20)).1 ^ 2 + (a2 (fromCompass 140 192) (fromCompass 112 283) (fromCompass 120 20)).2 ^ 2))) + 180) := by linarith [hdeg.2]
  have hin2 : 90 - (degrees (Real.arcsin (-(a2 (fromCompass 140 192) (fromCompass 112 283) (fromCompass 120 20)).2 / Real.sqrt ((a2 (fromCompass 140 192) (fromCompass 112 283) (fromCompass 120 20)).1 ^ 2 + (a2 (fromCompass 140 192) (fromCompass 112 283) (fromCompass 120 20)).2 ^ 2))) + 180) < 0 := by linarith [hdeg.1]
  rw [fmod_eq_self_add hin1 hin2 (by norm_num)]
  exact ⟨by linarith [hdeg.2], by linarith [hdeg.1]⟩

set_option maxHeartbeats 1000000 in
theorem heading3_bound :
    (11.65 : ℝ) < (toCompass (a3 (fromCompass 140 192) (fromCompass 112 283) (fromCompass 120 20))).2 ∧ (toCompass (a3 (fromCompass 140 192) (fromCompass 112 283) (fromCompass 120 20))).2 < 11.75 := by
  obtain ⟨bwx, bwy, ba2x, ba2y, ba3x, ba3y⟩ := wind_air_bounds
  obtain ⟨bM1, bM2, bM3, bMw⟩ := mag_bounds
  obtain ⟨hs1165l, hs1165h, hc1165l, hc1165h⟩ := trig_11_65
  obtain ⟨hs1175l, hs1175h, hc1175l, hc1175h⟩ := trig_11_75
  have etc2 : (toCompass (a3 (fromCompass 140 192) (fromCompass 112 283) (fromCompass 120 20))).2 = fmod (90 - degrees (arctan2 ((a3 (fromCompass 140 192) (fromCompass 112 283) (fromCompass 120 20)).2) ((a3 (fromCompass 140 192) (fromCompass 112 283) (fromCompass 120 20)).1))) 360 := rfl
  have harg : arctan2 ((a3 (fromCompass 140 192) (fromCompass 112 283) (fromCompass 120 20)).2) ((a3 (fromCompass 140 192) (fromCompass 112 283) (fromCompass 120 20)).1) = Real.arcsin ((a3 (fromCompass 140 192) (fromCompass 112 283) (fromCompass 120 20)).2 / Real.sqrt ((a3 (fromCompass 140 192) (fromCompass 112 283) (fromCompass 120 20)).1 ^ 2 + (a3 (fromCompass 140 192) (fromCompass 112 283) (fromCompass 120 20)).2 ^ 2)) :=
    arctan2_right_half (by linarith [ba3x.1])
  have bu : (0.979163994523 : ℝ) ≤ (a3 (fromCompass 140 192) (fromCompass 112 283) (fromCompass 120 20)).2 / Real.sqrt ((a3 (fromCompass 140 192) (fromCompass 112 283) (fromCompass 120 20)).1 ^ 2 + (a3 (fromCompass 140 192) (fromCompass 112 283) (fromCompass 120 20)).2 ^ 2) ∧ (a3 (fromCompass 140 192) (fromCompass 112 283) (fromCompass 120 20)).2 / Real.sqrt ((a3 (fromCompass 140 192) (fromCompass 112 283) (fromCompass 120 20)).1 ^ 2 + (a3 (fromCompass 140 192) (fromCompass 112 283) (fromCompass 120 20)).2 ^ 2) ≤ (0.979188867185 : ℝ) :=
    div_bounds_pos (by linarith [bM3.1]) (by linarith [bM3.1, bM3.2, ba3y.1, ba3y.2]) (by linarith [bM3.1, bM3.2, ba3y.1, ba3y.2])
  have hsl : Real.sin ((78.25 : ℝ) * (Real.pi / 180)) = Real.cos (11.75 * (Real.pi / 180)) := by
    rw [show (78.25 : ℝ) * (Real.pi / 180) = Real.pi / 2 - 11.75 * (Real.pi / 180) by ring, Real.sin_pi_div_two_sub]
  have hsh : Real.sin ((78.35 : ℝ) * (Real.pi / 180)) = Real.cos (11.65 * (Real.pi / 180)) := by
    rw [show (78.35 : ℝ) * (Real.pi / 180) = Real.pi / 2 - 11.65 * (Real.pi / 180) by ring, Real.sin_pi_div_two_sub]
  have harc := arcsin_window ((a3 (fromCompass 140 192) (fromCompass 112 283) (fromCompass 120 20)).2 / Real.sqrt ((a3 (fromCompass 140 192) (fromCompass 112 283) (fromCompass 120 20)).1 ^ 2 + (a3 (fromCompass 140 192) (fromCompass 112 283) (fromCompass 120 20)).2 ^ 2)) 78.25 78.35 (0.9790455526443 : ℝ) (0.97939877683988 : ℝ)
    (by norm_num) (by norm_num) (by norm_num)
    (by rw [hsl]; exact hc1175h) (by rw [hsh]; exact hc1165l)
    (by linarith [bu.1]) (by linarith [bu.2])
  have hdeg := degrees_window harc.1 harc.2
  rw [etc2, harg]
  have hin1 : (0 : ℝ) ≤ 90 - degrees (Real.arcsin ((a3 (fromCompass 140 192) (fromCompass 112 283) (fromCompass 120 20)).2 / Real.sqrt ((a3 (fromCompass 140 192) (fromCompass 112 283) (fromCompass 120 20)).1 ^ 2 + (a3 (fromCompass 140 192) (fromCompass 112 283) (fromCompass 120 20)).2 ^ 2))) := by linarith [hdeg.2]
  have hin2 : 90 - degrees (Real.arcsin ((a3 (fromCompass 140 192) (fromCompass 112 283) (fromCompass 120 20)).2 / Real.sqrt ((a3 (fromCompass 140 192) (fromCompass 112 283) (fromCompass 120 20)).1 ^ 2 + (a3 (fromCompass 140 192) (fromCompass 112 283) (fromCompass 120 20)).2 ^ 2))) < 360 := by linarith [hdeg.1]
  rw [fmod_eq_self hin1 hin2]
  exact ⟨by linarith [hdeg.2], by linarith [hdeg.1]⟩

set_option maxHeartbeats 1000000 in
theorem windfrom_bound :
    (314.75 : ℝ) < (toCompass (vneg (wind (fromCompass 140 192) (fromCompass 112 283) (fromCompass 120 20)))).2 ∧ (toCompass (vneg (wind (fromCompass 140 192) (fromCompass 112 283) (fromCompass 120 20)))).2 < 314.85 := by
  obtain ⟨bwx, bwy, ba2x, ba2y, ba3x, ba3y⟩ := wind_air_bounds
  obtain ⟨bM1, bM2, bM3, bMw⟩ := mag_bounds
  obtain ⟨hs4475l, hs4475h, hc4475l, hc4475h⟩ := trig_44_75
  obtain ⟨hs4485l, hs4485h, hc4485l, hc4485h⟩ := trig_44_85
  have etc2 : (toCompass (vneg (wind (fromCompass 140 192) (fromCompass 112 283) (fromCompass 120 20)))).2 = fmod (90 - degrees (arctan2 (-(wind (fromCompass 140 192) (fromCompass 112 283) (fromCompass 120 20)).2) (-(wind (fromCompass 140 192) (fromCompass 112 283) (fromCompass 120 20)).1))) 360 := rfl
  have harg : arctan2 (-(wind (fromCompass 140 192) (fromCompass 112 283) (fromCompass 120 20)).2) (-(wind (fromCompass 140 192) (fromCompass 112 283) (fromCompass 120 20)).1) =
      Real.arcsin (-(-(wind (fromCompass 140 192) (fromCompass 112 283) (fromCompass 120 20)).2) / Real.sqrt ((-(wind (fromCompass 140 192) (fromCompass 112 283) (fromCompass 120 20)).1) ^ 2 + (-(wind (fromCompass 140 192) (fromCompass 112 283) (fromCompass 120 20)).2) ^ 2)) + Real.pi :=
    arctan2_second_quadrant (by linarith [bwx.1]) (by linarith [bwy.2])
  have esimp : Real.arcsin (-(-(wind (fromCompass 140 192) (fromCompass 112 283) (fromCompass 120 20)).2) / Real.sqrt ((-(wind (fromCompass 140 192) (fromCompass 112 283) (fromCompass 120 20)).1) ^ 2 + (-(wind (fromCompass 140 192) (fromCompass 112 283) (fromCompass 120 20)).2) ^ 2)) =
      Real.arcsin ((wind (fromCompass 140 192) (fromCompass 112 283) (fromCompass 120 20)).2 / Real.sqrt ((wind (fromCompass 140 192) (fromCompass 112 283) (fromCompass 120 20)).1 ^ 2 + (wind (fromCompass 140 192) (fromCompass 112 283) (fromCompass 120 20)).2 ^ 2)) := by
    rw [show -(-(wind (fromCompass 140 192) (fromCompass 112 283) (fromCompass 120 20)).2) = (wind (fromCompass 140 192) (fromCompass 112 283) (fromCompass 120 20)).2 by ring, show (-(wind (fromCompass 140 192) (fromCompass 112 283) (fromCompass 120 20)).1) ^ 2 + (-(wind (fromCompass 140 192) (fromCompass 112 283) (fromCompass 120 20)).2) ^ 2 = (wind (fromCompass 140 192) (fromCompass 112 283) (fromCompass 120 20)).1 ^ 2 + (wind (fromCompass 140 192) (fromCompass 112 283) (fromCompass 120 20)).2 ^ 2 by ring]
  have bu : (-0.70416728694 : ℝ) ≤ (wind (fromCompass 140 192) (fromCompass 112 283) (fromCompass 120 20)).2 / Real.sqrt ((wind (fromCompass 140 192) (fromCompass 112 283) (fromCompass 120 20)).1 ^ 2 + (wind (fromCompass 140 192) (fromCompass 112 283) (fromCompass 120 20)).2 ^ 2) ∧ (wind (fromCompass 140 192) (fromCompass 112 283) (fromCompass 120 20)).2 / Real.sqrt ((wind (fromCompass 140 192) (fromCompass 112 283) (fromCompass 120 20)).1 ^ 2 + (wind (fromCompass 140 192) (fromCompass 112 283) (fromCompass 120 20)).2 ^ 2) ≤ (-0.704083208354 : ℝ) :=
    div_bounds_pos (by linarith [bMw.1]) (by linarith [bMw.1, bMw.2, bwy.1, bwy.2]) (by linarith [bMw.1, bMw.2, bwy.1, bwy.2])
  have hsl : Real.sin ((-44.85 : ℝ) * (Real.pi / 180)) = -Real.sin (44.85 * (Real.pi / 180)) := by
    rw [show (-44.85 : ℝ) * (Real.pi / 180) = -(44.85 * (Real.pi / 180)) by ring, Real.sin_neg]
  have hsh : Real.sin ((-44.75 : ℝ) * (Real.pi / 180)) = -Real.sin (44.75 * (Real.pi / 180)) := by
    rw [show (-44.75 : ℝ) * (Real.pi / 180) = -(44.75 * (Real.pi / 180)) by ring, Real.sin_neg]
  have harc := arcsin_window ((wind (fromCompass 140 192) (fromCompass 112 283) (fromCompass 120 20)).2 / Real.sqrt ((wind (fromCompass 140 192) (fromCompass 112 283) (fromCompass 120 20)).1 ^ 2 + (wind (fromCompass 140 192) (fromCompass 112 283) (fromCompass 120 20)).2 ^ 2)) (-44.85) (-44.75) (-0.70521504779151 : ℝ) (-0.70402276228541 : ℝ)
    (by norm_num) (by norm_num) (by norm_num)
    (by rw [hsl]; linarith [hs4485l]) (by rw [hsh]; linarith [hs4475h])
    (by linarith [bu.1]) (by linarith [bu.2])
  have hdeg := degrees_window harc.1 harc.2
  rw [etc2, harg, esimp, degrees_add_pi]
  have hin1 : -(360 : ℝ) ≤ 90 - (degrees (Real.arcsin ((wind (fromCompass 140 192) (fromCompass 112 283) (fromCompass 120 20)).2 / Real.sqrt ((wind (fromCompass 140 192) (fromCompass 112 283) (fromCompass 120 20)).1 ^ 2 + (wind (fromCompass 140 192) (fromCompass 112 283) (fromCompass 120 20)).2 ^ 2))) + 180) := by linarith [hdeg.2]
  have hin2 : 90 - (degrees (Real.arcsin ((wind (fromCompass 140 192) (fromCompass 112 283) (fromCompass 120 20)).2 / Real.sqrt ((wind (fromCompass 140 192) (fromCompass 112 283) (fromCompass 120 20)).1 ^ 2 + (wind (fromCompass 140 192) (fromCompass 112 283) (fromCompass 120 20)).2 ^ 2))) + 180) < 0 := by linarith [hdeg.1]
  rw [fmod_eq_self_add hin1 hin2 (by norm_num)]
  exact ⟨by linarith [hdeg.2], by linarith [hdeg.1]⟩

/-- C1: for the input observations (140, 192), (112, 283), (120, 20), `calculate`
returns a true airspeed that rounds to 130 (it lies within 0.5 of 130), headings
within 0.05 of 199.7, 287.8 and 11.7 degrees respectively, and a wind whose
from-bearing (computed as `toCompass (-w)` as in the notebook) is within 0.05 of
314.8 degrees with speed within 0.05 of 20.6. Proved by interval arithmetic over
the real-number model of the notebook's floating-point computation. -/
theorem known_answer_test :
    |(calculate (140, 192) (112, 283) (120, 20)).1 - 130| < 0.5 ∧
    |(calculate (140, 192) (112, 283) (120, 20)).2.2.1 - 199.7| < 0.05 ∧
    |(calculate (140, 192) (112, 283) (120, 20)).2.2.2.1 - 287.8| < 0.05 ∧
    |(calculate (140, 192) (112, 283) (120, 20)).2.2.2.2 - 11.7| < 0.05 ∧
    |(toCompass (vneg (calculate (140, 192) (112, 283) (120, 20)).2.1)).2 - 314.8| < 0.05 ∧
    |(toCompass (vneg (calculate (140, 192) (112, 283) (120, 20)).2.1)).1 - 20.6| < 0.05 := by
  refine ⟨?_, ?_, ?_, ?_, ?_, ?_⟩
  · have h := tas_bound
    show |tas (fromCompass 140 192) (fromCompass 112 283) (fromCompass 120 20) - 130| < 0.5
    rw [abs_lt]
    exact ⟨by linarith [h.1], by linarith [h.2]⟩
  · have h := heading1_bound
    show |(toCompass (a1 (fromCompass 140 192) (fromCompass 112 283) (fromCompass 120 20))).2 - 199.7| < 0.05
    rw [abs_lt]
    exact ⟨by linarith [h.1], by linarith [h.2]⟩
  · have h := heading2_bound
    show |(toCompass (a2 (fromCompass 140 192) (fromCompass 112 283) (fromCompass 120 20))).2 - 287.8| < 0.05
    rw [abs_lt]
    exact ⟨by linarith [h.1], by linarith [h.2]⟩
  · have h := heading3_bound
    show |(toCompass (a3 (fromCompass 140 192) (fromCompass 112 283) (fromCompass 120 20))).2 - 11.7| < 0.05
    rw [abs_lt]
    exact ⟨by linarith [h.1], by linarith [h.2]⟩
  · have h := windfrom_bound
    show |(toCompass (vneg (wind (fromCompass 140 192) (fromCompass 112 283) (fromCompass 120 20)))).2 - 314.8| < 0.05
    rw [abs_lt]
    exact ⟨by linarith [h.1], by linarith [h.2]⟩
  · have h := windspeed_bound
    show |(toCompass (vneg (wind (fromCompass 140 192) (fromCompass 112 283) (fromCompass 120 20)))).1 - 20.6| < 0.05
    rw [abs_lt]
    exact ⟨by linarith [h.1], by linarith [h.2]⟩


end TAV
